import Mathlib

/-!
Verification development for the rule-based notebook grading engine
(`homework_grader/detailed_analyzer.py` and the legacy feedback normalizer in
`homework_grader/grading_interface.py`).

Modelling conventions:

* All point values are represented in integer thousandths of a point
  ("millipoints", `ℤ`): the source's `2` points is `2000`, `0.5` is `500`,
  `12.5` is `12500`, `4.5 * 0.45 = 2.025` is `2025`.  Every numeric literal and
  every arithmetic step of the source's scoring rules is an exact decimal with
  at most three fractional digits, so this fixed-point embedding is exact.
  (The source computes in IEEE floats; the idealisation to exact decimal
  arithmetic is the standard one and none of the claims sits on a float
  rounding boundary.)
* Strings are Lean `String`s; Python `in`, `strip`, `lower`, `split` and the
  few concrete regular expressions used by the source are implemented
  character-by-character below, specialised to the exact patterns that appear
  in the source (ASCII text plus emoji, which the operations leave untouched).
* Jupyter cells and output records are structures mirroring the fields the
  source reads (`cell_type`, `source`, `outputs`, `execution_count`,
  `output_type`, `ename`, `evalue`, `name`, `text`), with `None`-able fields
  as `Option`.
* Python dicts that the source builds key-by-key are association lists
  (`List (String × _)`) with insertion-order update semantics (`dictInsert`).
-/

namespace HomeworkGrader

/-- Characters Python counts as whitespace for `str.strip`, `str.split` and the
regex class backslash-s, in the ASCII range covering all text this program handles. -/
def isPySpace (c : Char) : Bool :=
  c == ' ' || c == '\t' || c == '\n' || c == '\x0d' || c == '\x0b' || c == '\x0c'

/-- ASCII lower-casing: the effect of Python `str.lower` on the texts involved. -/
def lowerChar (c : Char) : Char :=
  if 'A' ≤ c && c ≤ 'Z' then Char.ofNat (c.toNat + 32) else c

def pyLower (s : String) : String :=
  String.mk (s.toList.map lowerChar)

/-- Does the character list start with the given needle. -/
def charsStartWith : List Char → List Char → Bool
  | [], _ => true
  | _ :: _, [] => false
  | a :: as, b :: bs => a == b && charsStartWith as bs

/-- Substring search on character lists. -/
def charsContain (needle : List Char) : List Char → Bool
  | [] => needle.isEmpty
  | c :: cs => charsStartWith needle (c :: cs) || charsContain needle cs

/-- Python `needle in haystack` on strings. -/
def pyIn (needle haystack : String) : Bool :=
  charsContain needle.toList haystack.toList

/-- Python `str.strip()`: drop leading and trailing whitespace. -/
def pyStrip (s : String) : String :=
  String.mk (((s.toList.dropWhile isPySpace).reverse.dropWhile isPySpace).reverse)

/-- Number of whitespace-separated words, Python `len(s.split())`. -/
def pyWordCount (s : String) : Nat :=
  ((s.toList.splitOnP isPySpace).filter (fun w => !w.isEmpty)).length

/-- Concatenate a list of strings with a separator, Python `sep.join(xs)`. -/
def pyJoin (sep : String) : List String → String
  | [] => ""
  | [x] => x
  | x :: xs => x ++ sep ++ pyJoin sep xs

/-- Python `s * n` / `n * s` string repetition (used for the `"=" * 50` rule). -/
def strRepeat (s : String) : Nat → String
  | 0 => ""
  | n + 1 => s ++ strRepeat s n

/-- If `pre` is a prefix of `cs`, the remainder after it. -/
def dropCharsPre : List Char → List Char → Option (List Char)
  | [], cs => some cs
  | _ :: _, [] => none
  | p :: ps, c :: cs => if p == c then dropCharsPre ps cs else none

/-- Matcher for the source's package-load regexes
`library\s*\(\s*tidyverse\s*\)` and `library\s*\(\s*readxl\s*\)`,
anchored at the head of the character list.  The regex is deterministic
(each `\s*` is followed by a non-whitespace literal), so maximal munch is exact. -/
def libCallAt (pkg : List Char) (cs : List Char) : Bool :=
  match dropCharsPre "library".toList cs with
  | none => false
  | some r0 =>
    match r0.dropWhile isPySpace with
    | '(' :: r1 =>
      match dropCharsPre pkg (r1.dropWhile isPySpace) with
      | none => false
      | some r2 =>
        match r2.dropWhile isPySpace with
        | ')' :: _ => true
        | _ => false
    | _ => false

def charsHaveLibCall (pkg : List Char) : List Char → Bool
  | [] => false
  | c :: cs => libCallAt pkg (c :: cs) || charsHaveLibCall pkg cs

/-- Python `re.search(r'library\s*\(\s*PKG\s*\)', source)` as a Boolean. -/
def hasLibraryCall (pkg source : String) : Bool :=
  charsHaveLibCall pkg.toList source.toList

/-- Maximal leading run of ASCII digits, with the remainder. -/
def takeDigits : List Char → List Char × List Char
  | [] => ([], [])
  | c :: cs =>
    if c.isDigit then
      let (ds, r) := takeDigits cs
      (c :: ds, r)
    else ([], c :: cs)

def digitsToNat (ds : List Char) : Nat :=
  ds.foldl (fun a c => a * 10 + (c.toNat - '0'.toNat)) 0

/-- Value, in millipoints, of a decimal numeral given as integer-part digits and
fraction digits (Python `float(...)` on the matched numeral; fraction digits
beyond the third — which never occur in this program's score strings — are cut). -/
def milliOfDigits (ip fp : List Char) : ℤ :=
  (digitsToNat ip : ℤ) * 1000 + (digitsToNat ((fp ++ ['0', '0', '0']).take 3) : ℤ)

/-- One step of the score-pattern regex from `parse_old_feedback_format`
(digits, optional dot and digits, a slash, digits, optional dot and digits),
anchored at the head of the list.  Returns the two captured numerals in
millipoints.  (The only backtracking the pattern admits is dropping an
unconsumed dot, which the fallback branches cover.) -/
def scoreMatchAt (cs : List Char) : Option (ℤ × ℤ) :=
  let (d1, r1) := takeDigits cs
  if d1.isEmpty then none
  else
    let g1r :=
      match r1 with
      | '.' :: rr =>
        let (d2, r2) := takeDigits rr
        match r2 with
        | '/' :: _ => ((d1, d2), r2)
        | _ => ((d1, ([] : List Char)), r1)
      | _ => ((d1, ([] : List Char)), r1)
    match g1r.2 with
    | '/' :: r3 =>
      let (e1, s1) := takeDigits r3
      if e1.isEmpty then none
      else
        match s1 with
        | '.' :: ss =>
          let (e2, _) := takeDigits ss
          some (milliOfDigits g1r.1.1 g1r.1.2, milliOfDigits e1 e2)
        | _ => some (milliOfDigits g1r.1.1 g1r.1.2, milliOfDigits e1 [])
    | _ => none

def charsScoreSearch : List Char → Option (ℤ × ℤ)
  | [] => none
  | c :: cs =>
    match scoreMatchAt (c :: cs) with
    | some p => some p
    | none => charsScoreSearch cs

/-- The leftmost match of the score pattern in `item`, as used by
`parse_old_feedback_format`, with the two numerals in millipoints. -/
def findScoreMatch (s : String) : Option (ℤ × ℤ) :=
  charsScoreSearch s.toList

/-- Decimal digits of a natural number. -/
def natDigits (n : Nat) : String :=
  String.mk (Nat.toDigits 10 n)

/-- Python one-decimal fixed formatting for a nonnegative exact value given as
the fraction `num / den` (both naturals, `den > 0`): ties go to even. -/
def formatFrac1 (num den : Nat) : String :=
  let a := num * 10
  let q := a / den
  let r := a % den
  let n10 :=
    if den < 2 * r then q + 1
    else if 2 * r < den then q
    else if q % 2 == 0 then q else q + 1
  natDigits (n10 / 10) ++ "." ++ natDigits (n10 % 10)

/-- Python one-decimal fixed formatting for a nonnegative score in millipoints. -/
def formatFix1M (m : ℤ) : String :=
  formatFrac1 m.toNat 1000

/-- Python plain `str` interpolation for the nonnegative numeric rubric
constants and scores that reach an unformatted slot (all with at most three
fractional digits; integers print with no fractional part, matching the
source's integer-typed scores — see the per-analyzer comments). -/
def showPyNum (m : ℤ) : String :=
  let n := m.toNat
  let ip := natDigits (n / 1000)
  let fp := n % 1000
  if fp == 0 then ip
  else if fp % 100 == 0 then ip ++ "." ++ natDigits (fp / 100)
  else if fp % 10 == 0 then ip ++ "." ++ natDigits (fp / 100) ++ natDigits (fp / 10 % 10)
  else ip ++ "." ++ natDigits (fp / 100) ++ natDigits (fp / 10 % 10) ++ natDigits (fp % 10)

/-- The comparison `score_percentage >= threshold` where
`score_percentage = total / max * 100` with `total`, `max` in millipoints and
`max > 0`: rendered multiplicatively to stay in integers. -/
def pctGE (total maxPts θ : ℤ) : Bool :=
  decide (θ * maxPts ≤ total * 100)

/-- The comparison `percentage >= threshold` for the reflection overview, where
`percentage` is `(t / p) * 100` when `p > 0` and `0` otherwise. -/
def ratioPctGE (t p θ : ℤ) : Bool :=
  if 0 < p then decide (θ * p ≤ t * 100) else decide (θ ≤ 0)

/-- The comparison `score >= max_points * tenths/10` used by the per-question
quality ladders, in integers. -/
def qualGE (score maxPts tenths : ℤ) : Bool :=
  decide (maxPts * tenths ≤ score * 10)

/-- `max_points * (hundredths/100)` — the tier increments such as 40 percent of
the question maximum; exact on every max-points value the source uses. -/
def portionOf (maxPts hundredths : ℤ) : ℤ :=
  maxPts * hundredths / 100

section DataModel

/-- One record of a cell's outputs list, with the fields the analyzer reads:
the output type, the error name and detail (read with defaulting `get`), the
stream name, and the stream text lines (joined by the empty separator at use). -/
structure OutputRecord where
  output_type : String
  ename : Option String := none
  evalue : Option String := none
  name : Option String := none
  text : List String := []
deriving Repr, DecidableEq

/-- A notebook cell as loaded: its type, source, outputs and execution counter. -/
structure NBCell where
  cell_type : String
  source : String
  outputs : List OutputRecord := []
  execution_count : Option ℤ := none
deriving Repr, DecidableEq

/-- The per-cell dict of source and outputs built by `analyze_notebook` for
code cells, on which the element analyzers operate.  `execution_count` is
carried as an `Option` because the analyzer functions probe it with a
defaulting `get`; `analyze_notebook` itself does not copy it into the dict, so
pipeline-built cells have it `none`. -/
structure CodeCell where
  source : String
  outputs : List OutputRecord := []
  execution_count : Option ℤ := none
deriving Repr, DecidableEq

/-- An entry of `question_analysis` as built by the analyzer. -/
structure QuestionEntry where
  score : ℤ
  max_score : ℤ
  quality : String
  response_text : String := ""
  detailed_feedback : String := ""
deriving Repr, DecidableEq

/-- The analysis dict built by `analyze_notebook` (scores in millipoints).
The bookkeeping keys `student_info` and `execution_attempted`, which no scoring
rule, formatter line or parser branch ever reads, are not modelled.
`tidyverse_conflicts_info` models the dynamically-added key of that name. -/
structure Analysis where
  total_score : ℤ
  max_score : ℤ
  detailed_feedback : List String
  element_scores : List (String × ℤ)
  missing_elements : List String
  code_issues : List String
  question_analysis : List (String × QuestionEntry)
  overall_assessment : String
  tidyverse_conflicts_info : Option String := none
deriving Repr, DecidableEq

/-- Python-dict assignment on an insertion-ordered association list:
overwrite in place if the key exists, otherwise append. -/
def dictInsert (l : List (String × α)) (k : String) (v : α) : List (String × α) :=
  if (l.map Prod.fst).contains k then
    l.map (fun p => bif p.1 == k then (k, v) else p)
  else l ++ [(k, v)]

end DataModel

section ElementAnalyzers

/-- Execution evidence for a cell: a non-empty outputs list, or failing that a
non-null execution counter whose decimal rendering is all digits (for an
integer counter: a nonnegative one).  This is the "more flexible execution
detection" block repeated throughout the analyzer. -/
def cellExecuted (c : CodeCell) : Bool :=
  if !c.outputs.isEmpty then true
  else
    match c.execution_count with
    | some n => decide (0 ≤ n)
    | none => false

/-- The working-directory probe on a cell source (the source tests the two
substrings `getwd()` and `getwd(` disjunctively). -/
def hasGetwd (s : String) : Bool :=
  pyIn "getwd()" s || pyIn "getwd(" s

/-- The cell at which `_analyze_working_directory`'s scan stops: the loop
breaks at the first cell whose source contains the call. -/
def wdFirstCell (cells : List CodeCell) : Option CodeCell :=
  cells.find? (fun c => hasGetwd c.source)

/-- The `found_getwd` / `has_output` / `was_executed` flags of
`_analyze_working_directory` after its loop. -/
def wdFlags (cells : List CodeCell) : Bool × Bool × Bool :=
  match wdFirstCell cells with
  | none => (false, false, false)
  | some c =>
    let hasOut := !c.outputs.isEmpty
    let wasExec :=
      hasOut ||
        (match c.execution_count with
         | some n => decide (0 ≤ n)
         | none => false)
    (true, hasOut, wasExec)

/-- The tiered working-directory score (the four branches of
`_analyze_working_directory`). -/
def wdScore (cells : List CodeCell) : ℤ :=
  let f := wdFlags cells
  if f.1 && f.2.1 && f.2.2 then 2000
  else if f.1 && f.2.2 then 1500
  else if f.1 then 500
  else 0

/-- The working-directory feedback line, one fixed string per tier. -/
def wdFeedback (cells : List CodeCell) : String :=
  let f := wdFlags cells
  if f.1 && f.2.1 && f.2.2 then
    "✅ **Working Directory (2/2 points)**: Correctly used getwd() and showed output"
  else if f.1 && f.2.2 then
    "👍 **Working Directory (1.5/2 points)**: Used getwd() and ran the cell - output may not be visible in this format"
  else if f.1 then
    "⚠️ **Working Directory (0.5/2 points)**: Code is there but you need to RUN the cell to see the output"
  else
    "❌ **Working Directory (0/2 points)**: Missing getwd() function call"

/-- `_analyze_working_directory`: tiered score for the `getwd()` check. -/
def analyzeWorkingDirectory (cells : List CodeCell) (analysis : Analysis) : Analysis :=
  let score := wdScore cells
  let fb := wdFeedback cells
  let missing : List String := if (wdFlags cells).1 then [] else ["getwd() function call"]
  { analysis with
    total_score := analysis.total_score + score
    element_scores := dictInsert analysis.element_scores "working_directory" score
    missing_elements := analysis.missing_elements ++ missing
    detailed_feedback := analysis.detailed_feedback ++ [fb] }

/-- Aggregate found / executed / error flags for one package across all cells:
the source loop only ever raises each flag, so the result is a disjunction over
cells.  A cell shows an error when any of its outputs is an error record. -/
def pkgStatus (pkg : String) (cells : List CodeCell) : Bool × Bool × Bool :=
  (cells.any (fun c => hasLibraryCall pkg c.source),
   cells.any (fun c => hasLibraryCall pkg c.source && cellExecuted c),
   cells.any (fun c =>
     hasLibraryCall pkg c.source && c.outputs.any (fun o => o.output_type == "error")))

/-- The per-package tier ladder of `_analyze_package_loading` (the feedback and
bookkeeping strings of the two packages differ only in the package name).
Returns the score, the feedback part, the code-issue entries and the
missing-element entries the tier emits. -/
def pkgTier (pkgName : String) (st : Bool × Bool × Bool) :
    ℤ × String × List String × List String :=
  let found := st.1
  let ex := st.2.1
  let er := st.2.2
  if ex && !er then
    (2000, "✅ " ++ pkgName ++ " loaded and executed successfully", [], [])
  else if found && !ex then
    (1000, "⚠️ " ++ pkgName ++ " code written but not executed", [], [])
  else if ex && er then
    (500, "⚠️ " ++ pkgName ++ " attempted but has errors", [pkgName ++ " loading error"], [])
  else if found then
    (500, "⚠️ " ++ pkgName ++ " code present but not run", [], [])
  else
    (0, "❌ " ++ pkgName ++ " not loaded", [], ["library(" ++ pkgName ++ ")"])

/-- The package-loading element score: two points per package by the tiers. -/
def pkgScore (cells : List CodeCell) : ℤ :=
  (pkgTier "tidyverse" (pkgStatus "tidyverse" cells)).1 +
    (pkgTier "readxl" (pkgStatus "readxl" cells)).1

/-- `_analyze_package_loading`: tidyverse and readxl, two points each. -/
def analyzePackageLoading (cells : List CodeCell) (analysis : Analysis) : Analysis :=
  let t := pkgTier "tidyverse" (pkgStatus "tidyverse" cells)
  let r := pkgTier "readxl" (pkgStatus "readxl" cells)
  let score := pkgScore cells
  let fb :=
    "📦 **Package Loading (" ++ showPyNum score ++ "/4 points)**: " ++
      pyJoin " | " [t.2.1, r.2.1]
  { analysis with
    total_score := analysis.total_score + score
    element_scores := dictInsert analysis.element_scores "package_loading" score
    code_issues := analysis.code_issues ++ t.2.2.1 ++ r.2.2.1
    missing_elements := analysis.missing_elements ++ t.2.2.2 ++ r.2.2.2
    detailed_feedback := analysis.detailed_feedback ++ [fb] }

/-- The concatenation of all code-cell sources used by the import and
inspection checks. -/
def allCodeOf (cells : List CodeCell) : String :=
  pyJoin "\n" (cells.map (fun c => c.source))

/-- The CSV-import score: three points for a `sales_df` `read_csv` assignment,
two more for the expected filename. -/
def csvImportScore (cells : List CodeCell) : ℤ :=
  let allCode := allCodeOf cells
  if pyIn "sales_df" allCode && pyIn "read_csv" allCode then
    (if pyIn "sales_data.csv" allCode then 5000 else 3000)
  else 0

/-- The Excel-import score: three points per `read_excel` dataset. -/
def excelImportScore (cells : List CodeCell) : ℤ :=
  let allCode := allCodeOf cells
  (if pyIn "ratings_df" allCode && pyIn "read_excel" allCode then 3000 else 0) +
    (if pyIn "comments_df" allCode && pyIn "read_excel" allCode then 3000 else 0)

/-- The combined `data_import` element score. -/
def importScore (cells : List CodeCell) : ℤ :=
  csvImportScore cells + excelImportScore cells

/-- `_analyze_data_import`: substring checks over the concatenation of all code
cell sources; five CSV points plus six Excel points stored under the single
`data_import` key. -/
def analyzeDataImport (cells : List CodeCell) (analysis : Analysis) : Analysis :=
  let allCode := allCodeOf cells
  let csvBase := pyIn "sales_df" allCode && pyIn "read_csv" allCode
  let csvFile := pyIn "sales_data.csv" allCode
  let csvScore : ℤ := csvImportScore cells
  let csvFb : List String :=
    if csvBase then
      ["✅ sales_df variable created with read_csv"] ++
        (if csvFile then ["✅ Correct filename (sales_data.csv)"]
         else ["⚠️ Filename may be incorrect"])
    else ["❌ Missing sales_df <- read_csv() assignment"]
  let missCsv : List String := if csvBase then [] else ["sales_df data import"]
  let ratingsFound := pyIn "ratings_df" allCode && pyIn "read_excel" allCode
  let commentsFound := pyIn "comments_df" allCode && pyIn "read_excel" allCode
  let excelScore : ℤ := excelImportScore cells
  let excelFb : List String :=
    (if ratingsFound then ["✅ ratings_df created with read_excel"]
     else ["❌ Missing ratings_df import"]) ++
    (if commentsFound then ["✅ comments_df created with read_excel"]
     else ["❌ Missing comments_df import"])
  let missExcel : List String :=
    (if ratingsFound then [] else ["ratings_df data import"]) ++
    (if commentsFound then [] else ["comments_df data import"])
  let csvFbStr := "📄 **CSV Import (" ++ showPyNum csvScore ++ "/5 points)**: " ++ pyJoin " | " csvFb
  let excelFbStr :=
    "📊 **Excel Import (" ++ showPyNum excelScore ++ "/6 points)**: " ++ pyJoin " | " excelFb
  { analysis with
    total_score := analysis.total_score + (csvScore + excelScore)
    element_scores := dictInsert analysis.element_scores "data_import" (csvScore + excelScore)
    missing_elements := analysis.missing_elements ++ missCsv ++ missExcel
    detailed_feedback := analysis.detailed_feedback ++ [csvFbStr, excelFbStr] }

/-- The stderr error-keyword allowlist probe of `_detect_code_errors`
(applied to the lower-cased stream text). -/
def stderrIsError (low : String) : Bool :=
  pyIn "does not exist" low || pyIn "path does not exist" low || pyIn "object" low ||
    pyIn "not found" low || pyIn "could not find function" low || pyIn "no such file" low

/-- The stderr skip-list probe of `_detect_code_errors` (non-actionable notes). -/
def stderrSkip (low : String) : Bool :=
  pyIn "warning:" low || pyIn "note:" low || pyIn "info:" low || pyIn "deprecated" low ||
    pyIn "package startup" low || pyIn "conflicts" low

/-- Processing of one output record by `_detect_code_errors`.  Note the
source's membership guards verbatim: explicit error records are deduplicated
against the exact string that gets appended, while the two stderr branches test
the raw stream text against `code_issues` but append the text with an added
prefix and stripped whitespace. -/
def detectOutput (a : Analysis) (o : OutputRecord) : Analysis :=
  if o.output_type == "error" then
    let errName := o.ename.getD "Unknown Error"
    let errValue := o.evalue.getD "No details"
    let msg := "ERROR: " ++ errName ++ ": " ++ errValue
    if a.code_issues.contains msg then a
    else { a with code_issues := a.code_issues ++ [msg] }
  else if o.output_type == "stream" && o.name == some "stderr" then
    let stderrText := pyJoin "" o.text
    if pyIn "tidyverse_conflicts()" stderrText && pyIn "Conflicts" stderrText then
      match a.tidyverse_conflicts_info with
      | some _ => a
      | none =>
        { a with
          tidyverse_conflicts_info := some (pyStrip stderrText)
          detailed_feedback := a.detailed_feedback ++
            ["ℹ️ Tidyverse conflicts detected - this is normal and expected"] }
    else if stderrIsError (pyLower stderrText) then
      if a.code_issues.contains stderrText then a
      else { a with code_issues := a.code_issues ++ ["ERROR: " ++ pyStrip stderrText] }
    else if !stderrSkip (pyLower stderrText) then
      if pyIn "error" (pyLower stderrText) && !a.code_issues.contains stderrText then
        { a with code_issues := a.code_issues ++ ["ERROR: " ++ pyStrip stderrText] }
      else a
    else a
  else a

/-- `_detect_code_errors`: catalogue execution errors cell by cell, output by
output. -/
def detectCodeErrors (cells : List CodeCell) (analysis : Analysis) : Analysis :=
  cells.foldl (fun a c => c.outputs.foldl detectOutput a) analysis

/-- The three required inspection call probes and the three datasets. -/
def inspFuncs : List String := ["head(", "str(", "summary("]

def inspDatasets : List String := ["sales_df", "ratings_df", "comments_df"]

/-- Per-required-function status: the scan breaks at the first cell containing
the probe, so found/executed come from that cell alone. -/
def funcStatus (fn : String) (cells : List CodeCell) : Bool × Bool :=
  match cells.find? (fun c => pyIn fn c.source) with
  | none => (false, false)
  | some c => (true, cellExecuted c)

/-- Tier for one required inspection function: score, feedback part, missing
entries. -/
def funcTier (base : String) (st : Bool × Bool) : ℤ × String × List String :=
  if st.2 then (2000, "✅ " ++ base ++ "() used and executed", [])
  else if st.1 then (500, "⚠️ " ++ base ++ "() code written but not executed", [])
  else (0, "❌ " ++ base ++ "() missing", [base ++ "() function"])

/-- Dataset-coverage status: a cell mentioning the dataset together with any
inspection call marks it found, an executed such cell marks it executed (the
double loop only raises flags). -/
def datasetStatus (ds : String) (cells : List CodeCell) : Bool × Bool :=
  (cells.any (fun c => pyIn ds c.source && inspFuncs.any (fun f => pyIn f c.source)),
   cells.any (fun c =>
     pyIn ds c.source && inspFuncs.any (fun f => pyIn f c.source) && cellExecuted c))

/-- Tier for one dataset's coverage: score and feedback part. -/
def datasetTier (ds : String) (st : Bool × Bool) : ℤ × String :=
  if st.2 then (1000, "✅ " ++ ds ++ " properly analyzed")
  else if st.1 then (300, "⚠️ " ++ ds ++ " code written but not run")
  else (0, "❌ " ++ ds ++ " not analyzed")

/-- The uncapped data-inspection score: three required calls and three dataset
coverages. -/
def inspRawScore (cells : List CodeCell) : ℤ :=
  (funcTier "head" (funcStatus "head(" cells)).1 +
    (funcTier "str" (funcStatus "str(" cells)).1 +
    (funcTier "summary" (funcStatus "summary(" cells)).1 +
    (datasetTier "sales_df" (datasetStatus "sales_df" cells)).1 +
    (datasetTier "ratings_df" (datasetStatus "ratings_df" cells)).1 +
    (datasetTier "comments_df" (datasetStatus "comments_df" cells)).1

/-- The data-inspection element score, capped at eight points. -/
def inspectionScore (cells : List CodeCell) : ℤ :=
  min 8000 (inspRawScore cells)

/-- `_analyze_data_inspection`: three required calls at two points each, three
dataset-coverage checks at up to one point each, capped at eight points; runs
`_detect_code_errors` first. -/
def analyzeDataInspection (cells : List CodeCell) (analysis : Analysis) : Analysis :=
  let analysis := detectCodeErrors cells analysis
  let hSt := funcStatus "head(" cells
  let sSt := funcStatus "str(" cells
  let mSt := funcStatus "summary(" cells
  let h := funcTier "head" hSt
  let s := funcTier "str" sSt
  let m := funcTier "summary" mSt
  let execCount := [hSt.2, sSt.2, mSt.2].count true
  let d1 := datasetTier "sales_df" (datasetStatus "sales_df" cells)
  let d2 := datasetTier "ratings_df" (datasetStatus "ratings_df" cells)
  let d3 := datasetTier "comments_df" (datasetStatus "comments_df" cells)
  let score := inspectionScore cells
  let guidance : List String :=
    if execCount == 0 then ["💡 Remember to RUN your code cells to see the outputs!"]
    else if execCount < 3 then ["💡 Make sure to run ALL inspection functions (head, str, summary)"]
    else []
  let parts := [h.2.1, s.2.1, m.2.1, d1.2, d2.2, d3.2] ++ guidance
  let fb := "🔍 **Data Inspection (" ++ formatFix1M score ++ "/8 points)**: " ++ pyJoin " | " parts
  { analysis with
    total_score := analysis.total_score + score
    element_scores := dictInsert analysis.element_scores "data_inspection" score
    missing_elements := analysis.missing_elements ++ h.2.2 ++ s.2.2 ++ m.2.2
    detailed_feedback := analysis.detailed_feedback ++ [fb] }

end ElementAnalyzers

section ReflectionQuestions

/-- Static configuration of one reflection question (the `questions` table in
`_analyze_reflection_questions`). -/
structure QuestionInfo where
  keywords : List String
  advanced_keywords : List String
  title : String
  points : ℤ
  question_text : String
deriving Repr, DecidableEq

/-- The three reflection questions, in table order. -/
def reflectionQuestions : List (String × QuestionInfo) :=
  [("data_types",
    { keywords := ["data type", "date", "amount", "character", "numeric", "integer",
        "appropriate", "business", "analytics"]
      advanced_keywords := ["datetime", "factor", "categorical", "continuous", "discrete",
        "format", "conversion"]
      title := "Data Types Analysis"
      points := 4000
      question_text := "data types analysis" }),
   ("data_quality",
    { keywords := ["missing", "quality", "unusual", "pattern", "issue", "problem",
        "clean", "null", "na"]
      advanced_keywords := ["outlier", "inconsistent", "duplicate", "validation",
        "integrity", "standardization"]
      title := "Data Quality Assessment"
      points := 4000
      question_text := "data quality assessment" }),
   ("analysis_readiness",
    { keywords := ["ready", "analysis", "preprocessing", "prepare", "clean", "dataset",
        "transform"]
      advanced_keywords := ["normalization", "aggregation", "join", "merge", "pivot",
        "reshape"]
      title := "Analysis Readiness"
      points := 4500
      question_text := "analysis readiness" })]

/-- The quality ladder shared by the three response analyzers: at least 90
percent of the maximum is Excellent, 70 Good, 50 Satisfactory. -/
def qualityLabel (score maxp : ℤ) : String :=
  if qualGE score maxp 9 then "Excellent"
  else if qualGE score maxp 7 then "Good"
  else if qualGE score maxp 5 then "Satisfactory"
  else "Needs Improvement"

/-- Fixed instructional tail of the data-types feedback (the body of the
source's template after the joined tier remarks; the template's leading
newline and indent are removed by its trailing `strip`). -/
def dataTypesTail : String :=
  "\n   \n   **What I'm looking for:** Data types matter more than you might think. If your dates are stored as text (\"2023-01-15\"), you can't calculate time differences or trends. If amounts have dollar signs (\"$1,234.56\"), you can't do math with them. \n   \n   When I see dates stored properly as date objects, I know you can calculate things like \"days between orders\" or \"monthly sales patterns.\" When amounts are numeric (1234.56), you can sum, average, and analyze them. \n   \n   This isn't just technical nitpicking - it's about what analysis you can actually do with your data. Check this first, always. It'll save you headaches later."

/-- `_analyze_data_types_response`: three additive tiers (concept coverage,
appropriateness and business context, length-based effort), capped at the
question maximum.  Takes the lower-cased response, the basic and advanced
keyword counts (the latter is computed but unused, as in the source), the word
count, and the question maximum in millipoints. -/
def analyzeDataTypesResponse (low : String) (basicKw advancedKw wc : Nat) (maxp : ℤ) :
    ℤ × String × String :=
  let _ := advancedKw
  let mentionsDate := ["date", "datetime", "time"].any (fun t => pyIn t low)
  let mentionsAmount := ["amount", "numeric", "number", "currency", "dollar"].any (fun t => pyIn t low)
  let apt := ["appropriate", "suitable", "good", "bad", "better", "should"].any (fun t => pyIn t low)
  let biz := ["business", "analytics", "analysis", "calculation", "report"].any (fun t => pyIn t low)
  let p1 : ℤ × List String :=
    if mentionsDate && mentionsAmount then
      (portionOf maxp 40, ["✅ Great - you identified both Date and Amount columns"])
    else if mentionsDate || mentionsAmount then
      (portionOf maxp 25,
       ["👍 Good start - you mentioned data types, but try to discuss both Date and Amount columns"])
    else if basicKw ≥ 1 then
      (portionOf maxp 15,
       ["👍 You're thinking about data types - now focus on the specific Date and Amount columns"])
    else (0, ["💡 Focus on the Date and Amount columns from sales_df - what data types are they?"])
  let p2 : ℤ × List String :=
    if apt && biz then
      (portionOf maxp 40, ["✅ Excellent - you connected data types to business analytics!"])
    else if apt then
      (portionOf maxp 30, ["✅ Good thinking about appropriateness - try connecting this to business needs"])
    else if biz then
      (portionOf maxp 20, ["👍 Nice business context - now discuss if the data types support your analysis goals"])
    else
      (0, ["💡 Think about this: can you do math with these data types? Can you sort dates chronologically?"])
  let p3 : ℤ × List String :=
    if wc ≥ 40 then (portionOf maxp 20, ["✅ Good detail in your response"])
    else if wc ≥ 20 then (portionOf maxp 15, ["👍 Nice effort - you could expand a bit more"])
    else if wc ≥ 10 then (portionOf maxp 10, ["👍 You answered the question - try adding more detail next time"])
    else (0, [])
  let score := p1.1 + p2.1 + p3.1
  (min score maxp, qualityLabel score maxp,
   pyJoin " | " (p1.2 ++ p2.2 ++ p3.2) ++ dataTypesTail)

/-- Fixed instructional tail of the data-quality feedback. -/
def dataQualityTail : String :=
  "\n   \n   **What I'm looking for:** Look for problems that will mess up your analysis. Missing values can throw off your totals. Inconsistent formatting (like \"North\" vs \"NORTH\" vs \"north\") will split your data when you try to group it. \n   \n   Watch for things that don't make business sense - negative sales amounts, future dates, or someone buying 999,999 keyboards (probably a data entry error). \n   \n   I also want to see you think about impact. If 5% of values are missing, that's different from 50% missing. If you have weird outliers, will they skew your averages? \n   \n   This isn't busy work - bad data leads to bad decisions. Spend time here and your analysis will be much more reliable."

/-- `_analyze_data_quality_response`: issue identification, impact discussion,
length-based effort. -/
def analyzeDataQualityResponse (low : String) (basicKw advancedKw wc : Nat) (maxp : ℤ) :
    ℤ × String × String :=
  let _ := advancedKw
  let mentionsMissing := ["missing", "null", "na", "blank", "empty"].any (fun t => pyIn t low)
  let mentionsPatterns := ["pattern", "unusual", "strange", "consistent", "inconsistent"].any (fun t => pyIn t low)
  let mentionsSpecific := ["duplicate", "outlier", "error", "format", "spelling"].any (fun t => pyIn t low)
  let impact := ["impact", "affect", "problem", "issue", "concern"].any (fun t => pyIn t low)
  let p1 : ℤ × List String :=
    if mentionsMissing && (mentionsPatterns || mentionsSpecific) then
      (portionOf maxp 50, ["✅ Excellent - you identified multiple types of data quality issues"])
    else if mentionsMissing || mentionsPatterns || mentionsSpecific then
      (portionOf maxp 35, ["✅ Good job identifying quality issues"])
    else if basicKw ≥ 1 then
      (portionOf maxp 20,
       ["👍 You're thinking about data quality - try to be more specific about what issues you see"])
    else
      (0, ["💡 Look at your data outputs - do you see any missing values (NA's) or unusual patterns?"])
  let p2 : ℤ × List String :=
    if impact then
      (portionOf maxp 30, ["✅ Great analytical thinking about impact on analysis"])
    else if ["analysis", "problem", "issue", "affect"].any (fun t => pyIn t low) then
      (portionOf maxp 20, ["👍 You're thinking analytically - expand on how these issues affect analysis"])
    else
      (0, ["💡 Think about this: how would missing data or errors affect your business conclusions?"])
  let p3 : ℤ × List String :=
    if wc ≥ 30 then (portionOf maxp 20, ["✅ Good detail in your assessment"])
    else if wc ≥ 15 then (portionOf maxp 15, ["👍 Nice response - you could add more specific examples"])
    else if wc ≥ 8 then (portionOf maxp 10, ["👍 You addressed the question - try expanding your observations"])
    else (0, [])
  let score := p1.1 + p2.1 + p3.1
  (min score maxp, qualityLabel score maxp,
   pyJoin " | " (p1.2 ++ p2.2 ++ p3.2) ++ dataQualityTail)

/-- Fixed instructional tail of the analysis-readiness feedback. -/
def analysisReadinessTail : String :=
  "\n   \n   **What I'm looking for:** Compare the datasets and tell me which one you'd start analyzing first. Think practically - which has fewer missing values? Which has cleaner, more consistent formatting? Which one can answer your most important business questions?\n   \n   For example, if your sales data is mostly complete but your feedback data has lots of gaps and messy text, you'd probably start with sales data to get quick insights, then clean up the feedback data later.\n   \n   In real work, you rarely get perfect data. You have to prioritize where to spend your time. Show me you can think strategically about this - it's a key skill."

/-- `_analyze_analysis_readiness_response`: dataset comparison, preprocessing
awareness, length-based effort. -/
def analyzeAnalysisReadinessResponse (low : String) (basicKw advancedKw wc : Nat) (maxp : ℤ) :
    ℤ × String × String :=
  let _ := basicKw
  let _ := advancedKw
  let compares := ["compare", "versus", "vs", "between", "different"].any (fun t => pyIn t low)
  let preprocessing := ["clean", "prepare", "process", "transform", "fix"].any (fun t => pyIn t low)
  let reasoning := ["because", "since", "due to", "reason", "therefore"].any (fun t => pyIn t low)
  let steps := ["first", "next", "then", "step", "need to"].any (fun t => pyIn t low)
  let p1 : ℤ × List String :=
    if compares && reasoning then
      (portionOf maxp 45, ["✅ Excellent - you compared datasets and explained your reasoning"])
    else if compares then
      (portionOf maxp 30, ["✅ Good job comparing datasets - try explaining WHY one is more ready"])
    else if ["sales", "rating", "comment", "dataset"].any (fun t => pyIn t low) then
      (portionOf maxp 20, ["👍 You mentioned the datasets - now compare which is most ready for analysis"])
    else
      (0, ["💡 Compare the three datasets (sales_df, ratings_df, comments_df) - which looks cleanest?"])
  let p2 : ℤ × List String :=
    if preprocessing && steps then
      (portionOf maxp 35, ["✅ Excellent understanding of data preparation needs"])
    else if preprocessing then
      (portionOf maxp 25, ["✅ Good - you understand data needs preparation"])
    else if ["clean", "fix", "prepare", "ready"].any (fun t => pyIn t low) then
      (portionOf maxp 15, ["👍 You're thinking about data preparation - what specific steps are needed?"])
    else
      (0, ["💡 Think about what you'd need to do to make the messiest dataset analysis-ready"])
  let p3 : ℤ × List String :=
    if wc ≥ 40 then (portionOf maxp 20, ["✅ Thoughtful and detailed response"])
    else if wc ≥ 20 then (portionOf maxp 15, ["✅ Good effort - nice reasoning"])
    else if wc ≥ 10 then (portionOf maxp 10, ["👍 You answered thoughtfully - could expand a bit more"])
    else (0, [])
  let score := p1.1 + p2.1 + p3.1
  (min score maxp, qualityLabel score maxp,
   pyJoin " | " (p1.2 ++ p2.2 ++ p3.2) ++ analysisReadinessTail)

/-- The placeholder denylist of `_analyze_single_question`. -/
def singleQuestionPlaceholders : List String :=
  ["[write your response here]", "[your answer here]", "todo", "add your", "write your response"]

/-- `_analyze_single_question`: placeholder check first (fixed 0.5 points and
"Incomplete"), then dispatch on the question key.  The source also computes a
sentence count that nothing reads; it is omitted. -/
def analyzeSingleQuestion (qKey : String) (resp : String) (qi : QuestionInfo) :
    ℤ × String × String :=
  let low := pyLower resp
  let basicKw := (qi.keywords.filter (fun k => pyIn k low)).length
  let advKw := (qi.advanced_keywords.filter (fun k => pyIn k low)).length
  let hasPlaceholder := singleQuestionPlaceholders.any (fun p => pyIn p low)
  let wc := pyWordCount resp
  if hasPlaceholder then
    (500, "Incomplete", "⚠️ Please replace the placeholder text with your own analysis.")
  else if qKey == "data_types" then analyzeDataTypesResponse low basicKw advKw wc qi.points
  else if qKey == "data_quality" then analyzeDataQualityResponse low basicKw advKw wc qi.points
  else if qKey == "analysis_readiness" then
    analyzeAnalysisReadinessResponse low basicKw advKw wc qi.points
  else (0, "Unknown", "Unable to analyze this response.")

/-- `_get_missing_question_guidance`: fixed guidance per question key. -/
def missingQuestionGuidance (qKey : String) : String :=
  if qKey == "data_types" then
    "\n   **What you should address:** Look at your `str()` output for sales_df. What data type is the Date column? What about Amount? Are these appropriate for business calculations? For example, if dates are stored as text, you can't easily calculate \"days between\" or group by month. If amounts have dollar signs, you can't sum them up. Think about what analyses you'd want to do and whether the current data types support that."
  else if qKey == "data_quality" then
    "\n   **What you should address:** Look at your `summary()` and `head()` outputs. Do you see any missing values (NA's)? Any unusual patterns in the data? Are there inconsistencies in how things are formatted? For example, are company names spelled consistently? Do the numbers look reasonable? Think about what might cause problems if you tried to analyze this data."
  else if qKey == "analysis_readiness" then
    "\n   **What you should address:** Compare all three datasets (sales_df, ratings_df, comments_df). Which one looks cleanest and most ready to analyze right away? Which one would need the most work before you could use it? Consider factors like missing data, consistent formatting, appropriate data types, and overall organization. Explain your reasoning!"
  else "Please provide a thoughtful response to this question."

/-- `_generate_reflection_overview`: percentage of the summed question scores
against the summed question maxima, with a zero percentage when nothing was
recorded. -/
def generateReflectionOverview (qa : List (String × QuestionEntry)) : String :=
  let tScore := (qa.map (fun p => p.2.score)).sum
  let tPossible := (qa.map (fun p => p.2.max_score)).sum
  if ratioPctGE tScore tPossible 85 then
    "\n🌟 **Overall Reflection Quality: Excellent!** Your responses show strong analytical thinking and good understanding of data management concepts. You're thinking like a business analyst should - considering practical implications and being thorough in your observations. Keep up this level of critical thinking!"
  else if ratioPctGE tScore tPossible 70 then
    "\n👍 **Overall Reflection Quality: Good!** You're on the right track with your analytical thinking. Your responses show you understand the key concepts, but there's room to go deeper. Try to connect your observations more explicitly to business implications and provide more specific examples from the data."
  else if ratioPctGE tScore tPossible 50 then
    "\n📈 **Overall Reflection Quality: Developing** You're starting to think analytically about data, which is great! To improve, focus on being more specific in your observations and explaining the \"why\" behind your assessments. What would these data issues mean for a real business trying to make decisions?"
  else
    "\n💡 **Overall Reflection Quality: Needs Development** The reflection questions are where you really develop your analytical thinking skills. Take more time with these - they're not just busy work! Look carefully at your data outputs, think about what you observe, and explain your reasoning. This kind of thinking is what separates good analysts from great ones."

/-- One iteration of the question loop in `_analyze_reflection_questions`.
State: the analysis, the accumulated question score, the feedback lines.
A response is present when it is non-empty with more than 15 characters after
stripping (the source's conjunction, whose first conjunct is implied by the
second). -/
def reflectQuestionStep (responses : String → String)
    (st : Analysis × ℤ × List String) (q : String × QuestionInfo) :
    Analysis × ℤ × List String :=
  let a := st.1
  let resp := responses q.1
  if (pyStrip resp).length > 15 then
    let r := analyzeSingleQuestion q.1 resp q.2
    let respText :=
      if resp.length > 200 then String.mk (resp.toList.take 200) ++ "..." else resp
    let entry : QuestionEntry :=
      { score := r.1, max_score := q.2.points, quality := r.2.1
        response_text := respText, detailed_feedback := r.2.2 }
    ({ a with question_analysis := dictInsert a.question_analysis q.1 entry },
     st.2.1 + r.1,
     st.2.2 ++
       ["📝 **" ++ q.2.title ++ "** (" ++ formatFix1M r.1 ++ "/" ++ showPyNum q.2.points ++
          " points)",
        r.2.2])
  else
    let g := missingQuestionGuidance q.1
    let entry : QuestionEntry :=
      { score := 0, max_score := q.2.points, quality := "Missing"
        response_text := "", detailed_feedback := g }
    ({ a with
        missing_elements := a.missing_elements ++ [q.2.title ++ " response"]
        question_analysis := dictInsert a.question_analysis q.1 entry },
     st.2.1,
     st.2.2 ++ ["❌ **" ++ q.2.title ++ "** (0/" ++ showPyNum q.2.points ++ " points)", g])

/-- `_analyze_reflection_questions`, parameterised by the extracted responses.

The source derives the per-question responses from the joined markdown via
`_extract_question_responses` (heading-based sectioning, keyword-overlap
matching and a fallback block scan — the Response Extractor).  Here that
extractor's output is taken as a parameter `responses` (empty string for an
unresolved question, exactly the dict's defaulting `get`), so every theorem
over all `responses` covers, in particular, the extractor's actual output for
every notebook. -/
def analyzeReflectionQuestions (responses : String → String) (analysis : Analysis) : Analysis :=
  let st := reflectionQuestions.foldl (reflectQuestionStep responses) (analysis, 0, [])
  let a := st.1
  let overview := generateReflectionOverview a.question_analysis
  let qfb := st.2.2 ++ ["", overview]
  let fb :=
    "💭 **Reflection Questions (" ++ formatFix1M st.2.1 ++ "/12.5 points)**:\n" ++
      pyJoin "\n" (qfb.map (fun x => "   " ++ x))
  { a with
    total_score := a.total_score + st.2.1
    element_scores := dictInsert a.element_scores "reflection_questions" st.2.1
    detailed_feedback := a.detailed_feedback ++ [fb] }

/-- The score contribution of one reflection question: zero for an absent
response, else the single-question analysis score. -/
def questionScore (responses : String → String) (q : String × QuestionInfo) : ℤ :=
  if (pyStrip (responses q.1)).length > 15 then
    (analyzeSingleQuestion q.1 (responses q.1) q.2).1
  else 0

/-- The `reflection_questions` element score: the sum over the three questions. -/
def reflectionScore (responses : String → String) : ℤ :=
  (reflectionQuestions.map (questionScore responses)).sum

end ReflectionQuestions

section Assessment

/-- Python `d.get(k, 0)` on the element-scores dict. -/
def lookupD (l : List (String × ℤ)) (k : String) (d : ℤ) : ℤ :=
  match l.lookup k with
  | some v => v
  | none => d

/-- The `_generate_r_corrections` dispatch for a single recorded code issue
(lower-cased), in source branch order. -/
def rCorrectionFor (issueLow : String) : List String :=
  if pyIn "does not exist" issueLow && pyIn ".csv" issueLow then
    ["\n**🔧 Data Import Fix - CSV File Not Found:**\n```r\n# Check your working directory and file location\ngetwd()  # See where R is currently looking\nlist.files()  # See what files are in current directory\nlist.files(\"data/\")  # See what's in the data folder\n\n# For CSV files, use:\nsales_df <- read_csv(\"data/sales_data.csv\")\n# NOT: read_csv(\"../data/sales.csv\") or read_csv(\"sales.csv\")\n\n# Make sure:\n# 1. File is named exactly \"sales_data.csv\" (check spelling!)\n# 2. File is in a \"data\" folder in your project\n# 3. You're running from the correct working directory\n```"]
  else if pyIn "path does not exist" issueLow && pyIn ".xlsx" issueLow then
    ["\n**🔧 Data Import Fix - Excel File Not Found:**\n```r\n# For Excel files, use:\nratings_df <- read_excel(\"data/ratings_data.xlsx\", sheet = \"ratings\")\ncomments_df <- read_excel(\"data/ratings_data.xlsx\", sheet = \"comments\")\n\n# Common fixes:\n# 1. Check file name spelling: \"ratings_data.xlsx\" not \"ratings.xlsx\"\n# 2. Make sure file is in \"data\" folder\n# 3. Check sheet names are correct: \"ratings\" and \"comments\"\n\n# To see sheet names in an Excel file:\nexcel_sheets(\"data/ratings_data.xlsx\")\n```"]
  else if pyIn "object" issueLow && pyIn "not found" issueLow then
    if pyIn "sales_df" issueLow then
      ["\n**🔧 Variable Fix - sales_df not found:**\n```r\n# You're trying to use sales_df before creating it\n# Make sure you run this cell first:\nsales_df <- read_csv(\"data/sales_data.csv\")\n\n# Then you can use it:\nhead(sales_df)\nstr(sales_df)\nsummary(sales_df)\n```"]
    else if pyIn "ratings_df" issueLow then
      ["\n**🔧 Variable Fix - ratings_df not found:**\n```r\n# You're trying to use ratings_df before creating it\n# Make sure you run this cell first:\nratings_df <- read_excel(\"data/ratings_data.xlsx\", sheet = \"ratings\")\n\n# Then you can use it:\nhead(ratings_df)\n```"]
    else if pyIn "comments_df" issueLow then
      ["\n**🔧 Variable Fix - comments_df not found:**\n```r\n# You're trying to use comments_df before creating it\n# Make sure you run this cell first:\ncomments_df <- read_excel(\"data/ratings_data.xlsx\", sheet = \"comments\")\n\n# Then you can use it:\nhead(comments_df)\n```"]
    else
      ["\n**🔧 Variable Fix - Object Not Found:**\n```r\n# This error means you're using a variable before creating it\n# Common causes:\n# 1. Typo in variable name (check spelling!)\n# 2. Didn't run the cell that creates the variable\n# 3. Variables are case-sensitive: sales_df ≠ Sales_df\n\n# Solution: Run cells in order from top to bottom\n```"]
  else if pyIn "could not find function" issueLow then
    if pyIn "read_csv" issueLow then
      ["\n**🔧 Function Fix - read_csv not found:**\n```r\n# read_csv comes from the tidyverse package\n# Make sure you load it first:\nlibrary(tidyverse)\n\n# Then you can use:\nsales_df <- read_csv(\"data/sales_data.csv\")\n```"]
    else if pyIn "read_excel" issueLow then
      ["\n**🔧 Function Fix - read_excel not found:**\n```r\n# read_excel comes from the readxl package\n# Make sure you load it first:\nlibrary(readxl)\n\n# Then you can use:\nratings_df <- read_excel(\"data/ratings_data.xlsx\", sheet = \"ratings\")\n```"]
    else
      ["\n**🔧 Function Fix - Function Not Found:**\n```r\n# This function isn't available - you probably need to load a package\nlibrary(tidyverse)  # For data manipulation functions\nlibrary(readxl)     # For Excel import functions\n\n# If you get \"package not found\", install first:\ninstall.packages(\"tidyverse\")\ninstall.packages(\"readxl\")\n```"]
  else []

/-- `_generate_r_corrections`: the tidyverse-conflicts note when the
informational key is present, then one correction per recognized code issue. -/
def generateRCorrections (a : Analysis) : List String :=
  (match a.tidyverse_conflicts_info with
   | some _ =>
     ["\n**ℹ️ About Tidyverse Conflicts (This is Normal!):**\nThe message about `dplyr::filter()` masking `stats::filter()` is just R telling you that tidyverse functions will be used instead of base R functions with the same names. This is expected and not an error.\n\nIf you ever need the base R version, you can use `stats::filter()` explicitly, but for this class, the tidyverse versions are what we want."]
   | none => []) ++
  (a.code_issues.map (fun issue => rCorrectionFor (pyLower issue))).flatten

/-- `_generate_code_corrections` (with `_generate_language_specific_corrections`
inlined: only the R corrections exist; the SQL and Python generators return
empty lists). -/
def generateCodeCorrections (a : Analysis) : List String :=
  (if lookupD a.element_scores "working_directory" 0 < 2000 then
    ["\n**🔧 Working Directory Fix:**\n```r\n# Make sure to run this cell and see the output\ngetwd()\n```\nThe output should show your current folder path. If you're not in the right folder, use:\n```r\nsetwd(\"path/to/your/assignment/folder\")\n```"]
   else []) ++
  (let pkgScore := lookupD a.element_scores "package_loading" 0
   if pkgScore < 4000 then
     if pkgScore < 2000 then
       ["\n**🔧 Package Loading Fix:**\n```r\n# Install packages first (only need to do this once)\ninstall.packages(\"tidyverse\")\ninstall.packages(\"readxl\")\n\n# Then load them (do this every time you restart R)\nlibrary(tidyverse)\nlibrary(readxl)\n```\nIf you get errors, try installing one at a time and restart R between installations."]
     else
       ["\n**🔧 Package Loading Fix:**\n```r\n# Make sure both packages are loaded\nlibrary(tidyverse)\nlibrary(readxl)\n```\nIf you get \"package not found\" errors, install first:\n```r\ninstall.packages(\"package_name\")\n```"]
   else []) ++
  (if lookupD a.element_scores "data_import" 0 < 8000 then
    ["\n**🔧 Data Import Fix:**\n```r\n# For CSV files\nsales_df <- read_csv(\"data/sales_data.csv\")\n\n# For Excel files with multiple sheets\nratings_df <- read_excel(\"data/customer_feedback.xlsx\", sheet = \"ratings\")\ncomments_df <- read_excel(\"data/customer_feedback.xlsx\", sheet = \"customer_feedback\")\n```\nCommon fixes:\n- Check file paths: make sure \"data/\" folder exists\n- Check sheet names: they're case-sensitive\n- Use forward slashes (/) not backslashes (\\\\) in file paths"]
   else []) ++
  (if lookupD a.element_scores "data_inspection" 0 < 6000 then
    ["\n**🔧 Data Inspection Fix:**\n```r\n# Run these for each dataset\nhead(sales_df)      # First 6 rows\nstr(sales_df)       # Structure and data types\nsummary(sales_df)   # Statistical summary\n\n# Do the same for other datasets\nhead(ratings_df)\nstr(ratings_df)\nsummary(ratings_df)\n\nhead(comments_df)\nstr(comments_df)\nsummary(comments_df)\n```\nMake sure to RUN each cell - you should see output below each command."]
   else []) ++
  generateRCorrections a

/-- `_generate_friendly_recommendations`: one fixed recommendation per
below-threshold element (in table order), the code-execution recommendation
with its concrete corrections when issues were recorded, and a study tip below
seventy percent. -/
def generateFriendlyRecommendations (a : Analysis) : List String :=
  (if lookupD a.element_scores "working_directory" 0 < 2000 then
    ["**Working Directory:** Run your `getwd()` command and make sure you can see the output. You need to know where R is looking for your files."]
   else []) ++
  (if lookupD a.element_scores "package_loading" 0 < 4000 then
    ["**Package Loading:** Check that both `tidyverse` and `readxl` load without errors. If you get error messages, you might need to install them first."]
   else []) ++
  (if lookupD a.element_scores "data_import" 0 < 8000 then
    ["**Data Import:** Make sure all three datasets (sales_df, ratings_df, comments_df) load successfully. Pay attention to file paths and sheet names for the Excel file."]
   else []) ++
  (if lookupD a.element_scores "data_inspection" 0 < 6000 then
    ["**Data Inspection:** Run `head()`, `str()`, and `summary()` on each dataset. Make sure you can see the outputs - this tells you what your data actually looks like."]
   else []) ++
  (let reflScore := lookupD a.element_scores "reflection_questions" 0
   if reflScore < 10000 then
     if reflScore < 5000 then
       ["**Reflection Questions:** Take more time with these. Look at your data outputs and explain what you see. These aren't just busy work - they help you think analytically."]
     else
       ["**Reflection Questions:** Good start, but go deeper. Connect what you observe to business implications. What would these data patterns mean for real decision-making?"]
   else []) ++
  (if !a.code_issues.isEmpty then
    ["**Code Execution:** Fix any error messages before submitting. Red error text means something went wrong - don't ignore it."] ++
      generateCodeCorrections a
   else []) ++
  (if !pctGE a.total_score a.max_score 70 then
    ["**Study Tip:** Go back through the lecture notebook and run the examples yourself. Practice is how you learn R."]
   else [])

/-- `_generate_overall_assessment`: grade line, opening, recommendations or
praise, closing — all chosen by percentage ladders.  (The unused `tone`
variable of the source is omitted.) -/
def generateOverallAssessment (a : Analysis) : String :=
  let gradeLevel :=
    if pctGE a.total_score a.max_score 90 then "Excellent Work!"
    else if pctGE a.total_score a.max_score 80 then "Good Job!"
    else if pctGE a.total_score a.max_score 70 then "Nice Progress!"
    else if pctGE a.total_score a.max_score 60 then "Keep Working!"
    else "Let's Regroup"
  let emoji :=
    if pctGE a.total_score a.max_score 90 then "🌟"
    else if pctGE a.total_score a.max_score 80 then "✅"
    else if pctGE a.total_score a.max_score 70 then "👍"
    else if pctGE a.total_score a.max_score 60 then "📈"
    else "💪"
  let pctStr := formatFrac1 (a.total_score.toNat * 100) a.max_score.toNat
  let head :=
    emoji ++ " **" ++ gradeLevel ++ "** (" ++ formatFix1M a.total_score ++ "/" ++
      showPyNum a.max_score ++ " points - " ++ pctStr ++ "%)\n\n"
  let opening :=
    if pctGE a.total_score a.max_score 85 then
      "Strong work! You're getting comfortable with R and starting to think analytically about data. Your technical execution is solid. "
    else if pctGE a.total_score a.max_score 70 then
      "You're learning the fundamentals well. With some attention to the details below, you'll be ready for more advanced analysis. "
    else if pctGE a.total_score a.max_score 50 then
      "Good effort on this assignment. You're building the foundation skills you need. Don't get discouraged - this stuff takes practice. "
    else
      "This is challenging material, so don't worry if it feels overwhelming. Focus on the basics and ask questions when you're stuck. "
  let recommendations := generateFriendlyRecommendations a
  let middle :=
    if !recommendations.isEmpty then
      "Here's what to focus on for next time:\n\n" ++ pyJoin "\n" recommendations
    else
      "You've mastered all the key concepts for this assignment. Keep up this excellent work!"
  let closing :=
    if pctGE a.total_score a.max_score 80 then
      "\n\nKeep this up. You're developing the analytical thinking that employers value."
    else if pctGE a.total_score a.max_score 60 then
      "\n\nYou're making progress. Each assignment builds on the previous one, so nail down these fundamentals."
    else
      "\n\nCome to office hours if you need help. We can work through any concepts that aren't clicking."
  head ++ opening ++ middle ++ closing

end Assessment

section Pipeline

/-- The fresh analysis dict of `analyze_notebook` (the unmodelled bookkeeping
keys aside, see `Analysis`). -/
def initialAnalysis : Analysis :=
  { total_score := 0
    max_score := 37500
    detailed_feedback := []
    element_scores := []
    missing_elements := []
    code_issues := []
    question_analysis := []
    overall_assessment := ""
    tidyverse_conflicts_info := none }

/-- The code-cell dicts `analyze_notebook` extracts: source and outputs only —
the execution counter is not copied, so the analyzers see it as absent. -/
def codeCellsOf (cells : List NBCell) : List CodeCell :=
  (cells.filter (fun c => c.cell_type == "code")).map
    (fun c => { source := c.source, outputs := c.outputs, execution_count := none })

/-- The successful path of `analyze_notebook` on loaded cells: the five element
analyzers in order, then the overall assessment.  The external notebook
re-execution step (`_execute_notebook_safely`) either produces executed cells
or falls back to the loaded ones; its effect is entirely contained in the
`outputs` of the given cells.  `responses` abstracts the Response Extractor as
in `analyzeReflectionQuestions`. -/
def analyzeLoadedNotebook (cells : List NBCell) (responses : String → String) : Analysis :=
  let codeCells := codeCellsOf cells
  let a := initialAnalysis
  let a := analyzeWorkingDirectory codeCells a
  let a := analyzePackageLoading codeCells a
  let a := analyzeDataImport codeCells a
  let a := analyzeDataInspection codeCells a
  let a := analyzeReflectionQuestions responses a
  { a with overall_assessment := generateOverallAssessment a }

/-- `analyze_notebook` with the document load made explicit: a load failure
(malformed or unreadable notebook, carried as the exception text) takes the
`except` branch and returns the fixed degraded analysis; a loaded document is
analyzed in full.  Totality of this function is the model of "never propagates
an exception to the caller". -/
def analyzeNotebook (loaded : Except String (List NBCell)) (responses : String → String) :
    Analysis :=
  match loaded with
  | .error e =>
    { total_score := 0
      max_score := 37500
      detailed_feedback := ["❌ Error analyzing notebook: " ++ e]
      element_scores := []
      missing_elements := ["All elements - notebook could not be analyzed"]
      code_issues := ["Notebook analysis failed: " ++ e]
      question_analysis := []
      overall_assessment := "Notebook could not be analyzed due to technical issues."
      tidyverse_conflicts_info := none }
  | .ok cells => analyzeLoadedNotebook cells responses

/-- The per-element point budgets of the `required_elements` configuration
table built in the analyzer's constructor (millipoints). -/
def requiredElementsPoints : List (String × ℤ) :=
  [("working_directory", 2000), ("package_loading", 4000), ("csv_import", 5000),
   ("excel_import", 6000), ("data_inspection", 8000), ("reflection_questions", 12500)]

/-- The maximum points of an `element_scores` key.  The analyzer stores the
CSV and Excel budgets under the single `data_import` key, whose maximum is
their sum. -/
def elementMaxPoints (k : String) : ℤ :=
  if k == "data_import" then
    lookupD requiredElementsPoints "csv_import" 0 + lookupD requiredElementsPoints "excel_import" 0
  else lookupD requiredElementsPoints k 0

end Pipeline

section Formatter

/-- ASCII upper-casing of one character. -/
def upperChar (c : Char) : Char :=
  if 'a' ≤ c && c ≤ 'z' then Char.ofNat (c.toNat - 32) else c

/-- Python `s.replace('_', ' ').title()` as applied to the question keys. -/
def pyTitleKey (s : String) : String :=
  let repl := s.toList.map (fun c => if c == '_' then ' ' else c)
  let rec go (prevAlpha : Bool) : List Char → List Char
    | [] => []
    | c :: cs =>
      let alpha := c.isAlpha
      (if alpha && !prevAlpha then upperChar c else if alpha then lowerChar c else c) ::
        go alpha cs
  String.mk (go false repl)

/-- `format_detailed_feedback`: the flat list-of-strings feedback. -/
def formatDetailedFeedback (analysis : Analysis) : List String :=
  ["📋 **DETAILED HOMEWORK ANALYSIS**", strRepeat "=" 50, "",
   "**Final Score: " ++ formatFix1M analysis.total_score ++ " / " ++
     showPyNum analysis.max_score ++ " points**",
   "", "**DETAILED BREAKDOWN:**"] ++
  analysis.detailed_feedback ++ [""] ++
  (if !analysis.missing_elements.isEmpty then
    ["**MISSING ELEMENTS:**"] ++ analysis.missing_elements.map (fun e => "• " ++ e) ++ [""]
   else []) ++
  (if !analysis.code_issues.isEmpty then
    ["**CODE ISSUES TO FIX:**"] ++ analysis.code_issues.map (fun e => "• " ++ e) ++ [""]
   else []) ++
  (if !analysis.question_analysis.isEmpty then
    ["**REFLECTION QUESTIONS ANALYSIS:**"] ++
      analysis.question_analysis.map (fun p =>
        "• " ++ pyTitleKey p.1 ++ ": " ++ p.2.quality ++ " (" ++ formatFix1M p.2.score ++
          "/" ++ showPyNum p.2.max_score ++ " points)") ++ [""]
   else []) ++
  [analysis.overall_assessment]

end Formatter

section LegacyParser

/-- A `question_analysis` entry as reconstructed by the legacy normalizer
(score, maximum and quality only). -/
structure ParsedQuestion where
  score : ℤ
  max_score : ℤ
  quality : String
deriving Repr, DecidableEq

/-- The structured result of `parse_old_feedback_format`. -/
structure ParsedFeedback where
  element_scores : List (String × ℤ)
  code_issues : List String
  question_analysis : List (String × ParsedQuestion)
  detailed_feedback : List String
  overall_assessment : String
deriving Repr, DecidableEq

/-- The first scan of `parse_old_feedback_format` over one item, in source
branch order.  (The `isinstance` guards hold for every item in this model,
where the legacy feedback is a list of strings.) -/
def parseScoreItem (r : ParsedFeedback) (item : String) : ParsedFeedback :=
  if pyIn "Working Directory" item && pyIn "points" item then
    match findScoreMatch item with
    | some m => { r with element_scores := dictInsert r.element_scores "working_directory" m.1 }
    | none => r
  else if pyIn "Package Loading" item && pyIn "points" item then
    match findScoreMatch item with
    | some m => { r with element_scores := dictInsert r.element_scores "package_loading" m.1 }
    | none => r
  else if pyIn "Import" item && pyIn "points" item then
    match findScoreMatch item with
    | some m =>
      if pyIn "CSV" item then
        { r with element_scores := dictInsert r.element_scores "csv_import" m.1 }
      else if pyIn "Excel" item then
        { r with element_scores := dictInsert r.element_scores "excel_import" m.1 }
      else r
    | none => r
  else if pyIn "Data Inspection" item && pyIn "points" item then
    match findScoreMatch item with
    | some m => { r with element_scores := dictInsert r.element_scores "data_inspection" m.1 }
    | none => r
  else if pyIn "Reflection Questions" item && pyIn "points" item then
    match findScoreMatch item with
    | some m =>
      { r with element_scores := dictInsert r.element_scores "reflection_questions" m.1 }
    | none => r
  else if pyIn "ERROR:" item then
    { r with code_issues := r.code_issues ++ [item] }
  else if pyIn "Good Job!" item || pyIn "Excellent Work!" item || pyIn "Keep Working!" item then
    { r with overall_assessment := item }
  else r

/-- The second scan of `parse_old_feedback_format` over one item: fixed,
hard-coded question entries keyed by which label occurs, in source branch
order. -/
def parseQuestionItem (r : ParsedFeedback) (item : String) : ParsedFeedback :=
  if pyIn "Data Types:" item then
    { r with question_analysis :=
        dictInsert r.question_analysis "data_types" ⟨3800, 4000, "Excellent"⟩ }
  else if pyIn "Data Quality:" item then
    { r with question_analysis :=
        dictInsert r.question_analysis "data_quality" ⟨3800, 4000, "Excellent"⟩ }
  else if pyIn "Analysis Readiness:" item then
    { r with question_analysis :=
        dictInsert r.question_analysis "analysis_readiness" ⟨2700, 4500, "Satisfactory"⟩ }
  else r

/-- The disjunction of the three assessment phrases `parse_old_feedback_format`
recognizes (its final scan-branch condition). -/
def assessmentPhrasePresent (item : String) : Bool :=
  pyIn "Good Job!" item || pyIn "Excellent Work!" item || pyIn "Keep Working!" item

/-- The disjunction of the scan-branch conditions that precede the assessment
branch in `parse_old_feedback_format`: an item matching any of these is
consumed before the assessment phrases are ever tested. -/
def earlierScoreBranch (item : String) : Bool :=
  (pyIn "Working Directory" item && pyIn "points" item) ||
    (pyIn "Package Loading" item && pyIn "points" item) ||
    (pyIn "Import" item && pyIn "points" item) ||
    (pyIn "Data Inspection" item && pyIn "points" item) ||
    (pyIn "Reflection Questions" item && pyIn "points" item) ||
    pyIn "ERROR:" item

/-- `parse_old_feedback_format`: both scans over the flat feedback list. -/
def parseOldFeedbackFormat (fb : List String) : ParsedFeedback :=
  let r0 : ParsedFeedback :=
    { element_scores := []
      code_issues := []
      question_analysis := []
      detailed_feedback := fb
      overall_assessment := "" }
  let r1 := fb.foldl parseScoreItem r0
  fb.foldl parseQuestionItem r1

end LegacyParser

section ConcreteInputs

/-- A stream output on stdout with the given text, as recorded by a plainly
successful cell. -/
def stdoutRecord (t : String) : OutputRecord :=
  { output_type := "stream", name := some "stdout", text := [t] }

/-- A stderr stream output with the given text. -/
def stderrRecord (t : String) : OutputRecord :=
  { output_type := "stream", name := some "stderr", text := [t] }

/-- Two code cells whose outputs carry the same qualifying stderr error text. -/
def dupErrCells : List CodeCell :=
  [{ source := "head(sales_df)", outputs := [stderrRecord "Error: object sales_df not found"] },
   { source := "str(sales_df)", outputs := [stderrRecord "Error: object sales_df not found"] }]

/-- A notebook that earns full technical marks (working directory, packages,
imports, inspection) with no reflection responses: 25 of 37.5 points. -/
def techCells : List NBCell :=
  [{ cell_type := "code", source := "getwd()"
     outputs := [stdoutRecord "/home/student/assignment"], execution_count := some 1 },
   { cell_type := "code", source := "library(tidyverse)\nlibrary(readxl)"
     outputs := [stdoutRecord "Attaching packages"], execution_count := some 2 },
   { cell_type := "code"
     source := "sales_df <- read_csv(\"data/sales_data.csv\")\nratings_df <- read_excel(\"data/customer_feedback.xlsx\")\ncomments_df <- read_excel(\"data/customer_feedback.xlsx\")"
     outputs := [stdoutRecord "Rows: 100"], execution_count := some 3 },
   { cell_type := "code"
     source := "head(sales_df)\nstr(sales_df)\nsummary(sales_df)\nhead(ratings_df)\nstr(ratings_df)\nsummary(ratings_df)\nhead(comments_df)\nstr(comments_df)\nsummary(comments_df)"
     outputs := [stdoutRecord "# A tibble"], execution_count := some 4 }]

/-- No extracted reflection responses. -/
def noResponses : String → String := fun _ => ""

/-- Full-marks reflection responses (each hits every keyword tier and the top
word-count tier of its question). -/
def fullResponses : String → String := fun k =>
  if k == "data_types" then
    "The Date column is stored as a proper date type and the Amount column is numeric, which is appropriate for business analytics because we can sum the amounts, average them, and sort the dates chronologically to build monthly trend reports for the business team without any conversion work."
  else if k == "data_quality" then
    "There are several missing values in the ratings data and an unusual pattern of duplicate rows in the comments, which will impact any analysis because totals and averages would be skewed if we do not clean these issues before reporting."
  else if k == "analysis_readiness" then
    "If we compare the three datasets, the sales data is most ready for analysis because it already has clean and consistent formatting, while the ratings and comments files need more preparation work; first we need to clean the missing entries, then transform the text fields, so plan the preprocessing steps before starting."
  else ""

/-- A legacy feedback item naming two question labels in one string. -/
def twoLabelItem : String := "Data Types: 1.0/4 and Data Quality: 1.0/4"

/-- Legacy feedback lines with one question label per string. -/
def legacyQuestionLines : List String :=
  ["• Data Types: Good (2.0/4 points)", "• Data Quality: Good (2.0/4 points)",
   "• Analysis Readiness: Satisfactory (2.5/4.5 points)"]

/-- A getwd cell that was never run: no outputs, no execution counter. -/
def getwdUnrunCell : CodeCell := { source := "getwd()" }

/-- A getwd cell with a recorded output. -/
def getwdRunCell : CodeCell :=
  { source := "getwd()", outputs := [stdoutRecord "/home/student"], execution_count := some 1 }

/-- Both library calls in separately executed, error-free cells. -/
def pkgBothCells : List CodeCell :=
  [{ source := "library(tidyverse)", outputs := [stdoutRecord "Attaching packages"] },
   { source := "library(readxl)", outputs := [stdoutRecord ""] }]

/-- Only the tidyverse call, executed and error-free; readxl appears nowhere. -/
def pkgTidyOnlyCells : List CodeCell :=
  [{ source := "library(tidyverse)", outputs := [stdoutRecord "Attaching packages"] }]

end ConcreteInputs

section DictLemmas

theorem dictInsert_of_not_mem {α : Type} {l : List (String × α)} {k : String} (v : α)
    (h : (l.map Prod.fst).contains k = false) : dictInsert l k v = l ++ [(k, v)] := by
  unfold dictInsert
  rw [h]
  simp

theorem dictInsert_of_mem {α : Type} {l : List (String × α)} {k : String} (v : α)
    (h : (l.map Prod.fst).contains k = true) :
    dictInsert l k v = l.map (fun p => bif p.1 == k then (k, v) else p) := by
  unfold dictInsert
  rw [h]
  simp

theorem dictInsert_ne_nil {α : Type} (l : List (String × α)) (k : String) (v : α) :
    dictInsert l k v ≠ [] := by
  unfold dictInsert
  split
  · rename_i h
    cases l with
    | nil => simp at h
    | cons p t => simp
  · simp

theorem lookup_map_overwrite {α : Type} {l : List (String × α)} {k : String} {v : α}
    (h : k ∈ l.map Prod.fst) :
    (l.map (fun p => bif p.1 == k then (k, v) else p)).lookup k = some v := by
  induction l with
  | nil => simp at h
  | cons p t ih =>
    cases hb : p.1 == k with
    | true =>
      simp only [List.map_cons, hb, Bool.cond_true]
      simp [List.lookup]
    | false =>
      have hp : p.1 ≠ k := by simpa using hb
      have hk : k ∈ t.map Prod.fst := by
        rcases List.mem_cons.mp h with h1 | h2
        · exact absurd h1.symm hp
        · exact h2
      have hkb : (k == p.1) = false := by
        simp only [beq_eq_false_iff_ne]
        exact fun hh => hp hh.symm
      simp only [List.map_cons, hb, Bool.cond_false]
      simp [List.lookup, hkb, ih hk]

theorem lookup_map_overwrite_ne {α : Type} {l : List (String × α)} {k k' : String} {v : α}
    (h : (k' == k) = false) :
    (l.map (fun p => bif p.1 == k then (k, v) else p)).lookup k' = l.lookup k' := by
  induction l with
  | nil => rfl
  | cons p t ih =>
    cases hb : p.1 == k with
    | true =>
      have hp : p.1 = k := by simpa using hb
      have h2 : (k' == p.1) = false := by rw [hp]; exact h
      simp only [List.map_cons, hb, Bool.cond_true]
      simp [List.lookup, h, h2, ih]
    | false =>
      simp only [List.map_cons, hb, Bool.cond_false]
      cases hkp : k' == p.1
      · simp [List.lookup, hkp, ih]
      · simp [List.lookup, hkp]

theorem lookup_append_single_self {α : Type} {l : List (String × α)} {k : String} {v : α}
    (h : (l.map Prod.fst).contains k = false) : (l ++ [(k, v)]).lookup k = some v := by
  induction l with
  | nil => simp [List.lookup]
  | cons p t ih =>
    simp only [List.map_cons, List.contains_cons, Bool.or_eq_false_iff] at h
    obtain ⟨h1, h2⟩ := h
    simp [List.lookup, h1, ih h2]

theorem lookup_append_single_ne {α : Type} {l : List (String × α)} {k k' : String} {v : α}
    (h : (k' == k) = false) : (l ++ [(k, v)]).lookup k' = l.lookup k' := by
  induction l with
  | nil => simp [List.lookup, h]
  | cons p t ih =>
    cases hkp : k' == p.1
    · simp [List.lookup, hkp, ih]
    · simp [List.lookup, hkp]

theorem lookup_dictInsert_self {α : Type} (l : List (String × α)) (k : String) (v : α) :
    (dictInsert l k v).lookup k = some v := by
  cases hc : (l.map Prod.fst).contains k with
  | true =>
    rw [dictInsert_of_mem v hc]
    exact lookup_map_overwrite (by simpa using hc)
  | false =>
    rw [dictInsert_of_not_mem v hc]
    exact lookup_append_single_self hc

theorem lookup_dictInsert_ne {α : Type} (l : List (String × α)) {k k' : String} (v : α)
    (h : k' ≠ k) : (dictInsert l k v).lookup k' = l.lookup k' := by
  have hbeq : (k' == k) = false := by simp [h]
  cases hc : (l.map Prod.fst).contains k with
  | true => rw [dictInsert_of_mem v hc]; exact lookup_map_overwrite_ne hbeq
  | false => rw [dictInsert_of_not_mem v hc]; exact lookup_append_single_ne hbeq

end DictLemmas

section FoldHelpers

theorem foldl_proj_const {α β γ : Type} (f : β → α → β) (P : β → γ)
    (h : ∀ b a, P (f b a) = P b) : ∀ (l : List α) (b : β), P (l.foldl f b) = P b := by
  intro l
  induction l with
  | nil => intro b; rfl
  | cons x t ih => intro b; rw [List.foldl_cons, ih, h]

theorem foldl_invariant {α β : Type} (f : β → α → β) (P : β → Prop)
    (h : ∀ b a, P b → P (f b a)) : ∀ (l : List α) (b : β), P b → P (l.foldl f b) := by
  intro l
  induction l with
  | nil => intro b hb; exact hb
  | cons x t ih => intro b hb; exact ih _ (h _ _ hb)

theorem foldl_reaches {α β : Type} (f : β → α → β) (P : β → Prop)
    (hmono : ∀ b a, P b → P (f b a)) (x : α) (hx : ∀ b, P (f b x)) :
    ∀ (l : List α) (b : β), x ∈ l → P (l.foldl f b) := by
  intro l
  induction l with
  | nil => intro b hmem; cases hmem
  | cons y t ih =>
    intro b hmem
    rcases List.mem_cons.mp hmem with h1 | h2
    · subst h1
      exact foldl_invariant f P hmono t _ (hx b)
    · exact ih _ h2

end FoldHelpers

section StageLemmas

theorem detectOutput_total_score (a : Analysis) (o : OutputRecord) :
    (detectOutput a o).total_score = a.total_score := by
  unfold detectOutput
  dsimp only
  repeat' split <;> try rfl

theorem detectOutput_element_scores (a : Analysis) (o : OutputRecord) :
    (detectOutput a o).element_scores = a.element_scores := by
  unfold detectOutput
  dsimp only
  repeat' split <;> try rfl

theorem detectOutput_missing_elements (a : Analysis) (o : OutputRecord) :
    (detectOutput a o).missing_elements = a.missing_elements := by
  unfold detectOutput
  dsimp only
  repeat' split <;> try rfl

theorem detectOutput_question_analysis (a : Analysis) (o : OutputRecord) :
    (detectOutput a o).question_analysis = a.question_analysis := by
  unfold detectOutput
  dsimp only
  repeat' split <;> try rfl

theorem detectOutput_feedback_extends (a : Analysis) (o : OutputRecord) :
    ∃ t, (detectOutput a o).detailed_feedback = a.detailed_feedback ++ t := by
  unfold detectOutput
  dsimp only
  repeat' split
  all_goals first
    | exact ⟨[], (List.append_nil _).symm⟩
    | exact ⟨["ℹ️ Tidyverse conflicts detected - this is normal and expected"], rfl⟩

theorem detectCodeErrors_total_score (cells : List CodeCell) (a : Analysis) :
    (detectCodeErrors cells a).total_score = a.total_score := by
  unfold detectCodeErrors
  exact foldl_proj_const _ (fun x => x.total_score)
    (fun b c => foldl_proj_const _ _ detectOutput_total_score c.outputs b) cells a

theorem detectCodeErrors_element_scores (cells : List CodeCell) (a : Analysis) :
    (detectCodeErrors cells a).element_scores = a.element_scores := by
  unfold detectCodeErrors
  exact foldl_proj_const _ (fun x => x.element_scores)
    (fun b c => foldl_proj_const _ _ detectOutput_element_scores c.outputs b) cells a

theorem detectCodeErrors_missing_elements (cells : List CodeCell) (a : Analysis) :
    (detectCodeErrors cells a).missing_elements = a.missing_elements := by
  unfold detectCodeErrors
  exact foldl_proj_const _ (fun x => x.missing_elements)
    (fun b c => foldl_proj_const _ _ detectOutput_missing_elements c.outputs b) cells a

theorem detectCodeErrors_feedback_extends (cells : List CodeCell) (a : Analysis) :
    ∃ t, (detectCodeErrors cells a).detailed_feedback = a.detailed_feedback ++ t := by
  unfold detectCodeErrors
  refine foldl_invariant _ (fun b => ∃ t, b.detailed_feedback = a.detailed_feedback ++ t)
    ?_ cells a ⟨[], by simp⟩
  intro b c hb
  refine foldl_invariant _ (fun b => ∃ t, b.detailed_feedback = a.detailed_feedback ++ t)
    ?_ c.outputs b hb
  intro b2 o hb2
  obtain ⟨t1, ht1⟩ := hb2
  obtain ⟨t2, ht2⟩ := detectOutput_feedback_extends b2 o
  exact ⟨t1 ++ t2, by rw [ht2, ht1, List.append_assoc]⟩

theorem analyzeWorkingDirectory_total_score (cells : List CodeCell) (a : Analysis) :
    (analyzeWorkingDirectory cells a).total_score = a.total_score + wdScore cells := rfl

theorem analyzeWorkingDirectory_element_scores (cells : List CodeCell) (a : Analysis) :
    (analyzeWorkingDirectory cells a).element_scores =
      dictInsert a.element_scores "working_directory" (wdScore cells) := rfl

theorem analyzeWorkingDirectory_feedback (cells : List CodeCell) (a : Analysis) :
    (analyzeWorkingDirectory cells a).detailed_feedback =
      a.detailed_feedback ++ [wdFeedback cells] := rfl

theorem analyzePackageLoading_total_score (cells : List CodeCell) (a : Analysis) :
    (analyzePackageLoading cells a).total_score = a.total_score + pkgScore cells := rfl

theorem analyzePackageLoading_element_scores (cells : List CodeCell) (a : Analysis) :
    (analyzePackageLoading cells a).element_scores =
      dictInsert a.element_scores "package_loading" (pkgScore cells) := rfl

theorem analyzePackageLoading_feedback_extends (cells : List CodeCell) (a : Analysis) :
    ∃ t, (analyzePackageLoading cells a).detailed_feedback = a.detailed_feedback ++ t :=
  ⟨_, rfl⟩

theorem analyzeDataImport_total_score (cells : List CodeCell) (a : Analysis) :
    (analyzeDataImport cells a).total_score = a.total_score + importScore cells := rfl

theorem analyzeDataImport_element_scores (cells : List CodeCell) (a : Analysis) :
    (analyzeDataImport cells a).element_scores =
      dictInsert a.element_scores "data_import" (importScore cells) := rfl

theorem analyzeDataImport_feedback_extends (cells : List CodeCell) (a : Analysis) :
    ∃ t, (analyzeDataImport cells a).detailed_feedback = a.detailed_feedback ++ t :=
  ⟨_, rfl⟩

theorem analyzeDataInspection_total_score (cells : List CodeCell) (a : Analysis) :
    (analyzeDataInspection cells a).total_score = a.total_score + inspectionScore cells := by
  show (detectCodeErrors cells a).total_score + inspectionScore cells =
    a.total_score + inspectionScore cells
  rw [detectCodeErrors_total_score]

theorem analyzeDataInspection_element_scores (cells : List CodeCell) (a : Analysis) :
    (analyzeDataInspection cells a).element_scores =
      dictInsert a.element_scores "data_inspection" (inspectionScore cells) := by
  show dictInsert (detectCodeErrors cells a).element_scores "data_inspection"
      (inspectionScore cells) = _
  rw [detectCodeErrors_element_scores]

theorem analyzeDataInspection_feedback_extends (cells : List CodeCell) (a : Analysis) :
    ∃ t, (analyzeDataInspection cells a).detailed_feedback = a.detailed_feedback ++ t := by
  unfold analyzeDataInspection
  dsimp only
  obtain ⟨t, ht⟩ := detectCodeErrors_feedback_extends cells a
  exact ⟨t ++ _, by rw [ht, List.append_assoc]⟩

theorem reflectStep_total_score (resp : String → String) (st : Analysis × ℤ × List String)
    (q : String × QuestionInfo) :
    ((reflectQuestionStep resp st q).1).total_score = st.1.total_score := by
  unfold reflectQuestionStep
  dsimp only
  split <;> rfl

theorem reflectStep_element_scores (resp : String → String) (st : Analysis × ℤ × List String)
    (q : String × QuestionInfo) :
    ((reflectQuestionStep resp st q).1).element_scores = st.1.element_scores := by
  unfold reflectQuestionStep
  dsimp only
  split <;> rfl

theorem reflectStep_feedback (resp : String → String) (st : Analysis × ℤ × List String)
    (q : String × QuestionInfo) :
    ((reflectQuestionStep resp st q).1).detailed_feedback = st.1.detailed_feedback := by
  unfold reflectQuestionStep
  dsimp only
  split <;> rfl

theorem reflectStep_score (resp : String → String) (st : Analysis × ℤ × List String)
    (q : String × QuestionInfo) :
    (reflectQuestionStep resp st q).2.1 = st.2.1 + questionScore resp q := by
  unfold reflectQuestionStep
  dsimp only
  split
  · rename_i h
    simp [questionScore, h]
  · rename_i h
    simp [questionScore, h]

theorem reflectFold_total_score (resp : String → String) :
    ∀ (qs : List (String × QuestionInfo)) (st : Analysis × ℤ × List String),
      ((qs.foldl (reflectQuestionStep resp) st).1).total_score = st.1.total_score := by
  intro qs
  induction qs with
  | nil => intro st; rfl
  | cons q t ih => intro st; rw [List.foldl_cons, ih, reflectStep_total_score]

theorem reflectFold_element_scores (resp : String → String) :
    ∀ (qs : List (String × QuestionInfo)) (st : Analysis × ℤ × List String),
      ((qs.foldl (reflectQuestionStep resp) st).1).element_scores = st.1.element_scores := by
  intro qs
  induction qs with
  | nil => intro st; rfl
  | cons q t ih => intro st; rw [List.foldl_cons, ih, reflectStep_element_scores]

theorem reflectFold_feedback (resp : String → String) :
    ∀ (qs : List (String × QuestionInfo)) (st : Analysis × ℤ × List String),
      ((qs.foldl (reflectQuestionStep resp) st).1).detailed_feedback =
        st.1.detailed_feedback := by
  intro qs
  induction qs with
  | nil => intro st; rfl
  | cons q t ih => intro st; rw [List.foldl_cons, ih, reflectStep_feedback]

theorem reflectFold_score (resp : String → String) :
    ∀ (qs : List (String × QuestionInfo)) (st : Analysis × ℤ × List String),
      (qs.foldl (reflectQuestionStep resp) st).2.1 =
        st.2.1 + (qs.map (questionScore resp)).sum := by
  intro qs
  induction qs with
  | nil => intro st; simp
  | cons q t ih =>
    intro st
    rw [List.foldl_cons, ih, reflectStep_score]
    simp [add_assoc]

theorem analyzeReflectionQuestions_total_score (resp : String → String) (a : Analysis) :
    (analyzeReflectionQuestions resp a).total_score = a.total_score + reflectionScore resp := by
  show ((reflectionQuestions.foldl (reflectQuestionStep resp) (a, 0, [])).1).total_score +
      (reflectionQuestions.foldl (reflectQuestionStep resp) (a, 0, [])).2.1 = _
  rw [reflectFold_total_score, reflectFold_score]
  simp [reflectionScore]

theorem analyzeReflectionQuestions_element_scores (resp : String → String) (a : Analysis) :
    (analyzeReflectionQuestions resp a).element_scores =
      dictInsert a.element_scores "reflection_questions" (reflectionScore resp) := by
  show dictInsert
      ((reflectionQuestions.foldl (reflectQuestionStep resp) (a, 0, [])).1).element_scores
      "reflection_questions"
      (reflectionQuestions.foldl (reflectQuestionStep resp) (a, 0, [])).2.1 = _
  rw [reflectFold_element_scores, reflectFold_score]
  simp [reflectionScore]

theorem analyzeReflectionQuestions_feedback_extends (resp : String → String) (a : Analysis) :
    ∃ t, (analyzeReflectionQuestions resp a).detailed_feedback = a.detailed_feedback ++ t := by
  unfold analyzeReflectionQuestions
  dsimp only
  rw [reflectFold_feedback]
  exact ⟨_, rfl⟩

end StageLemmas

section PipelineLemmas

theorem pipeline_total_score (cells : List NBCell) (resp : String → String) :
    (analyzeLoadedNotebook cells resp).total_score =
      wdScore (codeCellsOf cells) + pkgScore (codeCellsOf cells) +
        importScore (codeCellsOf cells) + inspectionScore (codeCellsOf cells) +
        reflectionScore resp := by
  unfold analyzeLoadedNotebook
  dsimp only
  rw [analyzeReflectionQuestions_total_score, analyzeDataInspection_total_score,
    analyzeDataImport_total_score, analyzePackageLoading_total_score,
    analyzeWorkingDirectory_total_score]
  show (0 : ℤ) + _ + _ + _ + _ + _ = _
  ring

theorem pipeline_element_scores (cells : List NBCell) (resp : String → String) :
    (analyzeLoadedNotebook cells resp).element_scores =
      [("working_directory", wdScore (codeCellsOf cells)),
       ("package_loading", pkgScore (codeCellsOf cells)),
       ("data_import", importScore (codeCellsOf cells)),
       ("data_inspection", inspectionScore (codeCellsOf cells)),
       ("reflection_questions", reflectionScore resp)] := by
  unfold analyzeLoadedNotebook
  dsimp only
  rw [analyzeReflectionQuestions_element_scores, analyzeDataInspection_element_scores,
    analyzeDataImport_element_scores, analyzePackageLoading_element_scores,
    analyzeWorkingDirectory_element_scores]
  rfl

theorem exists_append_trans {l m : List String} {x : String}
    (h : ∃ t, m = l ++ t) (hx : x ∈ l) : x ∈ m := by
  obtain ⟨t, ht⟩ := h
  rw [ht]
  exact List.mem_append_left _ hx

theorem wdFeedback_mem_pipeline (cells : List NBCell) (resp : String → String) :
    wdFeedback (codeCellsOf cells) ∈ (analyzeLoadedNotebook cells resp).detailed_feedback := by
  unfold analyzeLoadedNotebook
  dsimp only
  refine exists_append_trans (analyzeReflectionQuestions_feedback_extends resp _) ?_
  refine exists_append_trans (analyzeDataInspection_feedback_extends _ _) ?_
  refine exists_append_trans (analyzeDataImport_feedback_extends _ _) ?_
  refine exists_append_trans (analyzePackageLoading_feedback_extends _ _) ?_
  rw [analyzeWorkingDirectory_feedback]
  simp

theorem overall_mem_format (a : Analysis) :
    a.overall_assessment ∈ formatDetailedFeedback a := by
  unfold formatDetailedFeedback
  simp

theorem pipeline_overall (cells : List NBCell) (resp : String → String) :
    (analyzeLoadedNotebook cells resp).overall_assessment =
      generateOverallAssessment
        (analyzeReflectionQuestions resp
          (analyzeDataInspection (codeCellsOf cells)
            (analyzeDataImport (codeCellsOf cells)
              (analyzePackageLoading (codeCellsOf cells)
                (analyzeWorkingDirectory (codeCellsOf cells) initialAnalysis))))) := rfl

end PipelineLemmas

section BoundLemmas

theorem wdScore_bounds (cells : List CodeCell) : 0 ≤ wdScore cells ∧ wdScore cells ≤ 2000 := by
  unfold wdScore
  dsimp only
  split_ifs <;> norm_num

theorem pkgTier_bounds (n : String) (st : Bool × Bool × Bool) :
    0 ≤ (pkgTier n st).1 ∧ (pkgTier n st).1 ≤ 2000 := by
  unfold pkgTier
  dsimp only
  repeat' split
  all_goals norm_num

theorem pkgScore_bounds (cells : List CodeCell) :
    0 ≤ pkgScore cells ∧ pkgScore cells ≤ 4000 := by
  unfold pkgScore
  obtain ⟨h1, h2⟩ := pkgTier_bounds "tidyverse" (pkgStatus "tidyverse" cells)
  obtain ⟨h3, h4⟩ := pkgTier_bounds "readxl" (pkgStatus "readxl" cells)
  constructor <;> linarith

theorem csvImportScore_bounds (cells : List CodeCell) :
    0 ≤ csvImportScore cells ∧ csvImportScore cells ≤ 5000 := by
  unfold csvImportScore
  dsimp only
  split_ifs <;> norm_num

theorem excelImportScore_bounds (cells : List CodeCell) :
    0 ≤ excelImportScore cells ∧ excelImportScore cells ≤ 6000 := by
  unfold excelImportScore
  dsimp only
  split_ifs <;> norm_num

theorem importScore_bounds (cells : List CodeCell) :
    0 ≤ importScore cells ∧ importScore cells ≤ 11000 := by
  unfold importScore
  obtain ⟨h1, h2⟩ := csvImportScore_bounds cells
  obtain ⟨h3, h4⟩ := excelImportScore_bounds cells
  constructor <;> linarith

theorem funcTier_bounds (b : String) (st : Bool × Bool) :
    0 ≤ (funcTier b st).1 ∧ (funcTier b st).1 ≤ 2000 := by
  unfold funcTier
  repeat' split
  all_goals norm_num

theorem datasetTier_bounds (d : String) (st : Bool × Bool) :
    0 ≤ (datasetTier d st).1 ∧ (datasetTier d st).1 ≤ 1000 := by
  unfold datasetTier
  repeat' split
  all_goals norm_num

theorem inspectionScore_bounds (cells : List CodeCell) :
    0 ≤ inspectionScore cells ∧ inspectionScore cells ≤ 8000 := by
  unfold inspectionScore
  have hraw : 0 ≤ inspRawScore cells := by
    unfold inspRawScore
    have b1 := funcTier_bounds "head" (funcStatus "head(" cells)
    have b2 := funcTier_bounds "str" (funcStatus "str(" cells)
    have b3 := funcTier_bounds "summary" (funcStatus "summary(" cells)
    have b4 := datasetTier_bounds "sales_df" (datasetStatus "sales_df" cells)
    have b5 := datasetTier_bounds "ratings_df" (datasetStatus "ratings_df" cells)
    have b6 := datasetTier_bounds "comments_df" (datasetStatus "comments_df" cells)
    linarith [b1.1, b2.1, b3.1, b4.1, b5.1, b6.1]
  exact ⟨le_min (by norm_num) hraw, min_le_left _ _⟩

theorem portionOf_nonneg {maxp : ℤ} (h : 0 ≤ maxp) {c : ℤ} (hc : 0 ≤ c) :
    0 ≤ portionOf maxp c := by
  unfold portionOf
  exact Int.ediv_nonneg (by positivity) (by norm_num)

theorem analyzeDataTypesResponse_bounds (low : String) (b adv wc : Nat) {maxp : ℤ}
    (h : 0 ≤ maxp) :
    0 ≤ (analyzeDataTypesResponse low b adv wc maxp).1 ∧
      (analyzeDataTypesResponse low b adv wc maxp).1 ≤ maxp := by
  unfold analyzeDataTypesResponse
  dsimp only
  refine ⟨le_min ?_ h, min_le_right _ _⟩
  repeat' split
  all_goals simp
  all_goals (repeat' apply add_nonneg) <;>
    first
      | exact portionOf_nonneg h (by norm_num)
      | norm_num

theorem analyzeDataQualityResponse_bounds (low : String) (b adv wc : Nat) {maxp : ℤ}
    (h : 0 ≤ maxp) :
    0 ≤ (analyzeDataQualityResponse low b adv wc maxp).1 ∧
      (analyzeDataQualityResponse low b adv wc maxp).1 ≤ maxp := by
  unfold analyzeDataQualityResponse
  dsimp only
  refine ⟨le_min ?_ h, min_le_right _ _⟩
  repeat' split
  all_goals simp
  all_goals (repeat' apply add_nonneg) <;>
    first
      | exact portionOf_nonneg h (by norm_num)
      | norm_num

theorem analyzeAnalysisReadinessResponse_bounds (low : String) (b adv wc : Nat) {maxp : ℤ}
    (h : 0 ≤ maxp) :
    0 ≤ (analyzeAnalysisReadinessResponse low b adv wc maxp).1 ∧
      (analyzeAnalysisReadinessResponse low b adv wc maxp).1 ≤ maxp := by
  unfold analyzeAnalysisReadinessResponse
  dsimp only
  refine ⟨le_min ?_ h, min_le_right _ _⟩
  repeat' split
  all_goals simp
  all_goals (repeat' apply add_nonneg) <;>
    first
      | exact portionOf_nonneg h (by norm_num)
      | norm_num

theorem analyzeSingleQuestion_bounds (qKey resp : String) (qi : QuestionInfo)
    (h : 0 ≤ qi.points) (h500 : 500 ≤ qi.points) :
    0 ≤ (analyzeSingleQuestion qKey resp qi).1 ∧
      (analyzeSingleQuestion qKey resp qi).1 ≤ qi.points := by
  unfold analyzeSingleQuestion
  dsimp only
  split
  · exact ⟨by norm_num, h500⟩
  · split
    · exact analyzeDataTypesResponse_bounds _ _ _ _ h
    · split
      · exact analyzeDataQualityResponse_bounds _ _ _ _ h
      · split
        · exact analyzeAnalysisReadinessResponse_bounds _ _ _ _ h
        · exact ⟨le_refl 0, h⟩

theorem questionScore_bounds (resp : String → String) (q : String × QuestionInfo)
    (hq : q ∈ reflectionQuestions) :
    0 ≤ questionScore resp q ∧ questionScore resp q ≤ q.2.points := by
  fin_cases hq
  all_goals unfold questionScore
  all_goals split
  · exact analyzeSingleQuestion_bounds _ _ _ (by norm_num) (by norm_num)
  · exact ⟨le_refl 0, by norm_num⟩
  · exact analyzeSingleQuestion_bounds _ _ _ (by norm_num) (by norm_num)
  · exact ⟨le_refl 0, by norm_num⟩
  · exact analyzeSingleQuestion_bounds _ _ _ (by norm_num) (by norm_num)
  · exact ⟨le_refl 0, by norm_num⟩

theorem sum_questionScore_bounds (resp : String → String) :
    ∀ qs : List (String × QuestionInfo),
      (∀ q ∈ qs, 0 ≤ questionScore resp q ∧ questionScore resp q ≤ q.2.points) →
      0 ≤ (qs.map (questionScore resp)).sum ∧
        (qs.map (questionScore resp)).sum ≤ (qs.map (fun q => q.2.points)).sum := by
  intro qs
  induction qs with
  | nil => intro _; simp
  | cons q t ih =>
    intro hall
    have hq := hall q (List.mem_cons_self _ _)
    have ht := ih (fun x hx => hall x (List.mem_cons_of_mem _ hx))
    simp only [List.map_cons, List.sum_cons]
    constructor <;> linarith [hq.1, hq.2, ht.1, ht.2]

theorem reflectionScore_bounds (resp : String → String) :
    0 ≤ reflectionScore resp ∧ reflectionScore resp ≤ 12500 := by
  obtain ⟨hl, hr⟩ := sum_questionScore_bounds resp reflectionQuestions
    (fun q hq => questionScore_bounds resp q hq)
  refine ⟨hl, le_trans hr ?_⟩
  decide

end BoundLemmas

section ClaimInvariants

/-- C1: For every analyzed notebook — any loaded cell sequence and any
extracted reflection responses — the returned `total_score` equals the exact
sum of the values of `element_scores`, and every element score lies within
zero and its element's maximum points (in millipoints: working_directory 2000,
package_loading 4000, data_import 11000, data_inspection 8000,
reflection_questions 12500, per `elementMaxPoints`). -/
theorem analysis_total_is_exact_sum_and_scores_bounded
    (cells : List NBCell) (resp : String → String) :
    (analyzeLoadedNotebook cells resp).total_score =
      ((analyzeLoadedNotebook cells resp).element_scores.map Prod.snd).sum ∧
    ∀ p ∈ (analyzeLoadedNotebook cells resp).element_scores,
      0 ≤ p.2 ∧ p.2 ≤ elementMaxPoints p.1 := by
  constructor
  · rw [pipeline_total_score, pipeline_element_scores]
    simp only [List.map_cons, List.map_nil, List.sum_cons, List.sum_nil]
    ring
  · rw [pipeline_element_scores]
    intro p hp
    fin_cases hp
    · exact wdScore_bounds (codeCellsOf cells)
    · exact pkgScore_bounds (codeCellsOf cells)
    · exact importScore_bounds (codeCellsOf cells)
    · exact inspectionScore_bounds (codeCellsOf cells)
    · exact reflectionScore_bounds resp

/-- C2 (amended): after every successful analysis, the keys of
`element_scores` are exactly `working_directory`, `package_loading`,
`data_import`, `data_inspection` and `reflection_questions`, in insertion
order, each exactly once.  The configured `csv_import` and `excel_import`
rubric keys never appear: their budgets are merged under the single
`data_import` key. -/
theorem element_scores_keys_exactly_once (cells : List NBCell) (resp : String → String) :
    (analyzeLoadedNotebook cells resp).element_scores.map Prod.fst =
      ["working_directory", "package_loading", "data_import", "data_inspection",
       "reflection_questions"] := by
  rw [pipeline_element_scores]
  rfl

/-- C2 counterexample: on a concrete (empty) notebook the configured rubric
keys `csv_import` and `excel_import` occur zero times — not exactly once — as
keys of `element_scores`. -/
theorem csv_excel_keys_not_in_element_scores :
    ((analyzeLoadedNotebook [] noResponses).element_scores.map Prod.fst).count "csv_import"
        = 0 ∧
    ((analyzeLoadedNotebook [] noResponses).element_scores.map Prod.fst).count "excel_import"
        = 0 := by
  decide

/-- C7: for a notebook document that cannot be loaded (the `except` path of
`analyze_notebook`, with the exception text `e`), the function still returns —
totality of the model is the no-propagation guarantee — and the result has
total score zero, an empty `element_scores` map and a single explanatory
`detailed_feedback` entry. -/
theorem load_failure_returns_degraded_analysis (e : String) (resp : String → String) :
    (analyzeNotebook (.error e) resp).total_score = 0 ∧
    (analyzeNotebook (.error e) resp).element_scores = [] ∧
    (analyzeNotebook (.error e) resp).detailed_feedback =
      ["❌ Error analyzing notebook: " ++ e] :=
  ⟨rfl, rfl, rfl⟩

/-- C9: the working-directory element is determined solely by the first code
cell containing the `getwd(` probe — two cell lists with the same first such
cell produce identical working-directory analyses, so later cells' outputs and
execution counters never matter; concretely, an unexecuted getwd cell followed
by an executed one with output scores 0.5 points, not 2. -/
theorem wd_tier_depends_only_on_first_getwd_cell :
    (∀ (cells cells' : List CodeCell) (a : Analysis),
       wdFirstCell cells = wdFirstCell cells' →
       analyzeWorkingDirectory cells a = analyzeWorkingDirectory cells' a) ∧
    ((analyzeWorkingDirectory [getwdUnrunCell, getwdRunCell]
        initialAnalysis).element_scores.lookup "working_directory" = some 500) := by
  constructor
  · intro cells cells' a h
    unfold analyzeWorkingDirectory wdScore wdFeedback wdFlags
    rw [h]
  · decide

/-- C9 witness: the first-cell determination applied at a concrete pair of
cell lists with the same leading getwd cell. -/
theorem wd_tier_depends_only_on_first_getwd_cell_witness :
    analyzeWorkingDirectory [getwdUnrunCell, getwdRunCell] initialAnalysis =
      analyzeWorkingDirectory [getwdUnrunCell] initialAnalysis :=
  wd_tier_depends_only_on_first_getwd_cell.1 _ _ _ (by decide)

/-- C4: for a notebook whose getwd cell is the first (in particular, the only)
code cell containing the call: with a non-empty outputs list the
working-directory element scores exactly 2 of 2 points; with an empty outputs
list and a null execution counter it scores exactly 0.5 of 2.  (Which cell
counts is settled by the first-match rule, see the C9 theorem.) -/
theorem working_directory_two_point_and_half_point_tiers
    (cells : List CodeCell) (c : CodeCell) (hfirst : wdFirstCell cells = some c) :
    (c.outputs ≠ [] →
       (analyzeWorkingDirectory cells initialAnalysis).element_scores.lookup
         "working_directory" = some 2000) ∧
    (c.outputs = [] → c.execution_count = none →
       (analyzeWorkingDirectory cells initialAnalysis).element_scores.lookup
         "working_directory" = some 500) := by
  have hbase : (analyzeWorkingDirectory cells initialAnalysis).element_scores.lookup
      "working_directory" = some (wdScore cells) := by
    rw [analyzeWorkingDirectory_element_scores]
    exact lookup_dictInsert_self _ _ _
  constructor
  · intro houts
    have hscore : wdScore cells = 2000 := by
      unfold wdScore wdFlags
      rw [hfirst]
      have hb : c.outputs.isEmpty = false := by
        cases hc : c.outputs with
        | nil => exact absurd hc houts
        | cons x xs => rfl
      simp [hb]
    rw [hbase, hscore]
  · intro houts hexec
    have hscore : wdScore cells = 500 := by
      unfold wdScore wdFlags
      rw [hfirst]
      simp [houts, hexec]
    rw [hbase, hscore]

/-- C4 witness: the two tiers at concrete one-cell notebooks. -/
theorem working_directory_two_point_and_half_point_tiers_witness :
    (analyzeWorkingDirectory [getwdRunCell] initialAnalysis).element_scores.lookup
      "working_directory" = some 2000 ∧
    (analyzeWorkingDirectory [getwdUnrunCell] initialAnalysis).element_scores.lookup
      "working_directory" = some 500 :=
  ⟨(working_directory_two_point_and_half_point_tiers [getwdRunCell] getwdRunCell
      (by decide)).1 (by decide),
   (working_directory_two_point_and_half_point_tiers [getwdUnrunCell] getwdUnrunCell
      (by decide)).2 rfl rfl⟩

end ClaimInvariants

section PackageClaim

theorem pkgTier_fst_executed_ok (n : String) (st : Bool × Bool × Bool)
    (h1 : st.2.1 = true) (h2 : st.2.2 = false) : (pkgTier n st).1 = 2000 := by
  unfold pkgTier
  rw [h1, h2]
  simp

theorem pkgTier_fst_absent (n : String) (st : Bool × Bool × Bool)
    (h1 : st.1 = false) (h2 : st.2.1 = false) (h3 : st.2.2 = false) :
    (pkgTier n st).1 = 0 := by
  unfold pkgTier
  rw [h1, h2, h3]
  simp

theorem pkgStatus_executed_of (pkg : String) (cells : List CodeCell)
    (h : ∃ c ∈ cells, hasLibraryCall pkg c.source = true ∧ cellExecuted c = true) :
    (pkgStatus pkg cells).2.1 = true := by
  show cells.any (fun c => hasLibraryCall pkg c.source && cellExecuted c) = true
  rw [List.any_eq_true]
  obtain ⟨c, hc, h1, h2⟩ := h
  exact ⟨c, hc, by rw [h1, h2]; rfl⟩

theorem pkgStatus_no_error_of (pkg : String) (cells : List CodeCell)
    (h : ∀ c ∈ cells, hasLibraryCall pkg c.source = true →
      ∀ o ∈ c.outputs, (o.output_type == "error") = false) :
    (pkgStatus pkg cells).2.2 = false := by
  show cells.any
      (fun c => hasLibraryCall pkg c.source &&
        c.outputs.any (fun o => o.output_type == "error")) = false
  rw [List.any_eq_false]
  intro c hc
  cases hlib : hasLibraryCall pkg c.source with
  | false => simp [hlib]
  | true =>
    have : c.outputs.any (fun o => o.output_type == "error") = false := by
      rw [List.any_eq_false]
      intro o ho
      simp [h c hc hlib o ho]
    simp [hlib, this]

theorem pkgStatus_absent_of (pkg : String) (cells : List CodeCell)
    (h : ∀ c ∈ cells, hasLibraryCall pkg c.source = false) :
    (pkgStatus pkg cells).1 = false ∧ (pkgStatus pkg cells).2.1 = false ∧
      (pkgStatus pkg cells).2.2 = false := by
  refine ⟨?_, ?_, ?_⟩
  · show cells.any (fun c => hasLibraryCall pkg c.source) = false
    rw [List.any_eq_false]
    intro c hc
    simp [h c hc]
  · show cells.any (fun c => hasLibraryCall pkg c.source && cellExecuted c) = false
    rw [List.any_eq_false]
    intro c hc
    simp [h c hc]
  · show cells.any
        (fun c => hasLibraryCall pkg c.source &&
          c.outputs.any (fun o => o.output_type == "error")) = false
    rw [List.any_eq_false]
    intro c hc
    simp [h c hc]

theorem pkg_lookup_is_pkgScore (cells : List CodeCell) :
    (analyzePackageLoading cells initialAnalysis).element_scores.lookup "package_loading" =
      some (pkgScore cells) := by
  rw [analyzePackageLoading_element_scores]
  exact lookup_dictInsert_self _ _ _

/-- C5: when both `library(tidyverse)` and `library(readxl)` occur in executed
cells and no cell containing either call shows an error output record, the
package-loading element scores exactly 4 of 4 points; when exactly one of the
two is so loaded and the other appears in no cell, it scores exactly 2 of 4
(2 for the loaded package, 0 for the missing one) — both directions. -/
theorem package_loading_full_and_half_tiers (cells : List CodeCell) :
    ((∃ c ∈ cells, hasLibraryCall "tidyverse" c.source = true ∧ cellExecuted c = true) →
     (∀ c ∈ cells, hasLibraryCall "tidyverse" c.source = true →
        ∀ o ∈ c.outputs, (o.output_type == "error") = false) →
     (∃ c ∈ cells, hasLibraryCall "readxl" c.source = true ∧ cellExecuted c = true) →
     (∀ c ∈ cells, hasLibraryCall "readxl" c.source = true →
        ∀ o ∈ c.outputs, (o.output_type == "error") = false) →
     (analyzePackageLoading cells initialAnalysis).element_scores.lookup "package_loading" =
       some 4000) ∧
    ((∃ c ∈ cells, hasLibraryCall "tidyverse" c.source = true ∧ cellExecuted c = true) →
     (∀ c ∈ cells, hasLibraryCall "tidyverse" c.source = true →
        ∀ o ∈ c.outputs, (o.output_type == "error") = false) →
     (∀ c ∈ cells, hasLibraryCall "readxl" c.source = false) →
     (analyzePackageLoading cells initialAnalysis).element_scores.lookup "package_loading" =
       some 2000) ∧
    ((∃ c ∈ cells, hasLibraryCall "readxl" c.source = true ∧ cellExecuted c = true) →
     (∀ c ∈ cells, hasLibraryCall "readxl" c.source = true →
        ∀ o ∈ c.outputs, (o.output_type == "error") = false) →
     (∀ c ∈ cells, hasLibraryCall "tidyverse" c.source = false) →
     (analyzePackageLoading cells initialAnalysis).element_scores.lookup "package_loading" =
       some 2000) := by
  refine ⟨?_, ?_, ?_⟩
  · intro hTex hTerr hRex hRerr
    rw [pkg_lookup_is_pkgScore]
    unfold pkgScore
    rw [pkgTier_fst_executed_ok _ _ (pkgStatus_executed_of _ _ hTex)
        (pkgStatus_no_error_of _ _ hTerr),
      pkgTier_fst_executed_ok _ _ (pkgStatus_executed_of _ _ hRex)
        (pkgStatus_no_error_of _ _ hRerr)]
    rfl
  · intro hTex hTerr hRno
    rw [pkg_lookup_is_pkgScore]
    unfold pkgScore
    obtain ⟨a1, a2, a3⟩ := pkgStatus_absent_of "readxl" cells hRno
    rw [pkgTier_fst_executed_ok _ _ (pkgStatus_executed_of _ _ hTex)
        (pkgStatus_no_error_of _ _ hTerr),
      pkgTier_fst_absent _ _ a1 a2 a3]
    rfl
  · intro hRex hRerr hTno
    rw [pkg_lookup_is_pkgScore]
    unfold pkgScore
    obtain ⟨a1, a2, a3⟩ := pkgStatus_absent_of "tidyverse" cells hTno
    rw [pkgTier_fst_executed_ok _ _ (pkgStatus_executed_of _ _ hRex)
        (pkgStatus_no_error_of _ _ hRerr),
      pkgTier_fst_absent _ _ a1 a2 a3]
    rfl

/-- C5 witness: the 4-of-4 tier on a concrete two-cell notebook and the
2-of-4 tier on a concrete tidyverse-only notebook. -/
theorem package_loading_full_and_half_tiers_witness :
    (analyzePackageLoading pkgBothCells initialAnalysis).element_scores.lookup
      "package_loading" = some 4000 ∧
    (analyzePackageLoading pkgTidyOnlyCells initialAnalysis).element_scores.lookup
      "package_loading" = some 2000 :=
  ⟨(package_loading_full_and_half_tiers pkgBothCells).1
      (by decide) (by decide) (by decide) (by decide),
   (package_loading_full_and_half_tiers pkgTidyOnlyCells).2.1
      (by decide) (by decide) (by decide)⟩

end PackageClaim

section ReflectionClaim

theorem reflectStep_qa_other (resp : String → String) (st : Analysis × ℤ × List String)
    (q' : String × QuestionInfo) {k : String} (hk : k ≠ q'.1) :
    ((reflectQuestionStep resp st q').1).question_analysis.lookup k =
      st.1.question_analysis.lookup k := by
  unfold reflectQuestionStep
  dsimp only
  split <;> exact lookup_dictInsert_ne _ _ hk

theorem reflectStep_missing_mono (resp : String → String) (st : Analysis × ℤ × List String)
    (q' : String × QuestionInfo) {x : String} (hx : x ∈ st.1.missing_elements) :
    x ∈ ((reflectQuestionStep resp st q').1).missing_elements := by
  unfold reflectQuestionStep
  dsimp only
  split
  · exact hx
  · exact List.mem_append_left _ hx

theorem reflectStep_self_missing (resp : String → String) (st : Analysis × ℤ × List String)
    (q : String × QuestionInfo) (h : ¬((pyStrip (resp q.1)).length > 15)) :
    ((reflectQuestionStep resp st q).1).question_analysis.lookup q.1 =
      some { score := 0, max_score := q.2.points, quality := "Missing",
             response_text := "", detailed_feedback := missingQuestionGuidance q.1 } ∧
    (q.2.title ++ " response") ∈ ((reflectQuestionStep resp st q).1).missing_elements := by
  unfold reflectQuestionStep
  dsimp only
  rw [if_neg h]
  dsimp only
  refine ⟨lookup_dictInsert_self _ _ _, List.mem_append_right _ ?_⟩
  simp

theorem reflectStep_self_present (resp : String → String) (st : Analysis × ℤ × List String)
    (q : String × QuestionInfo) (h : (pyStrip (resp q.1)).length > 15) :
    ∃ e, ((reflectQuestionStep resp st q).1).question_analysis.lookup q.1 = some e ∧
      e.score = (analyzeSingleQuestion q.1 (resp q.1) q.2).1 ∧
      e.quality = (analyzeSingleQuestion q.1 (resp q.1) q.2).2.1 := by
  unfold reflectQuestionStep
  dsimp only
  rw [if_pos h]
  dsimp only
  exact ⟨_, lookup_dictInsert_self _ _ _, rfl, rfl⟩

theorem analyzeSingleQuestion_placeholder (qKey resp : String) (qi : QuestionInfo)
    (h : (singleQuestionPlaceholders.any (fun p => pyIn p (pyLower resp))) = true) :
    analyzeSingleQuestion qKey resp qi =
      (500, "Incomplete", "⚠️ Please replace the placeholder text with your own analysis.") := by
  unfold analyzeSingleQuestion
  dsimp only
  rw [if_pos h]

theorem analyzeReflectionQuestions_qa (resp : String → String) (a : Analysis) :
    (analyzeReflectionQuestions resp a).question_analysis =
      ((reflectionQuestions.foldl (reflectQuestionStep resp) (a, 0, [])).1).question_analysis :=
  rfl

theorem analyzeReflectionQuestions_missing (resp : String → String) (a : Analysis) :
    (analyzeReflectionQuestions resp a).missing_elements =
      ((reflectionQuestions.foldl (reflectQuestionStep resp) (a, 0, [])).1).missing_elements :=
  rfl

/-- C6: for every reflection question, a response whose stripped text has at
most 15 characters is treated as absent — the question is recorded with score
0 and quality Missing and an entry is appended to `missing_elements`; and a
response (long enough to be considered) that contains a known placeholder
string is scored exactly 0.5 points with quality Incomplete, regardless of any
domain keywords it contains (the theorem quantifies over all responses). -/
theorem reflection_missing_and_placeholder_scoring
    (resp : String → String) (q : String × QuestionInfo) (hq : q ∈ reflectionQuestions) :
    ((pyStrip (resp q.1)).length ≤ 15 →
       (analyzeReflectionQuestions resp initialAnalysis).question_analysis.lookup q.1 =
         some { score := 0, max_score := q.2.points, quality := "Missing",
                response_text := "", detailed_feedback := missingQuestionGuidance q.1 } ∧
       (q.2.title ++ " response") ∈
         (analyzeReflectionQuestions resp initialAnalysis).missing_elements) ∧
    ((pyStrip (resp q.1)).length > 15 →
     (singleQuestionPlaceholders.any (fun p => pyIn p (pyLower (resp q.1)))) = true →
     ∃ e, (analyzeReflectionQuestions resp initialAnalysis).question_analysis.lookup q.1 =
         some e ∧ e.score = 500 ∧ e.quality = "Incomplete") := by
  rw [show (analyzeReflectionQuestions resp initialAnalysis).question_analysis.lookup q.1 =
      ((reflectionQuestions.foldl (reflectQuestionStep resp)
        (initialAnalysis, 0, [])).1).question_analysis.lookup q.1 from rfl]
  have hmiss : (analyzeReflectionQuestions resp initialAnalysis).missing_elements =
      ((reflectionQuestions.foldl (reflectQuestionStep resp)
        (initialAnalysis, 0, [])).1).missing_elements := rfl
  rw [hmiss]
  simp only [reflectionQuestions, List.foldl_cons, List.foldl_nil]
  fin_cases hq
  · constructor
    · intro hlen
      have hnot := Nat.not_lt.mpr hlen
      obtain ⟨h1, h2⟩ := reflectStep_self_missing resp (initialAnalysis, 0, []) _ hnot
      refine ⟨?_, ?_⟩
      · rw [reflectStep_qa_other _ _ _ (by decide), reflectStep_qa_other _ _ _ (by decide)]
        exact h1
      · exact reflectStep_missing_mono _ _ _ (reflectStep_missing_mono _ _ _ h2)
    · intro hlen hph
      rw [reflectStep_qa_other _ _ _ (by decide), reflectStep_qa_other _ _ _ (by decide)]
      obtain ⟨e, he, hs, hqual⟩ := reflectStep_self_present resp (initialAnalysis, 0, []) _ hlen
      refine ⟨e, he, ?_, ?_⟩
      · rw [hs, analyzeSingleQuestion_placeholder _ _ _ hph]
      · rw [hqual, analyzeSingleQuestion_placeholder _ _ _ hph]
  · constructor
    · intro hlen
      have hnot := Nat.not_lt.mpr hlen
      obtain ⟨h1, h2⟩ := reflectStep_self_missing resp
        (reflectQuestionStep resp (initialAnalysis, 0, []) _) _ hnot
      refine ⟨?_, ?_⟩
      · rw [reflectStep_qa_other _ _ _ (by decide)]
        exact h1
      · exact reflectStep_missing_mono _ _ _ h2
    · intro hlen hph
      rw [reflectStep_qa_other _ _ _ (by decide)]
      obtain ⟨e, he, hs, hqual⟩ := reflectStep_self_present resp
        (reflectQuestionStep resp (initialAnalysis, 0, []) _) _ hlen
      refine ⟨e, he, ?_, ?_⟩
      · rw [hs, analyzeSingleQuestion_placeholder _ _ _ hph]
      · rw [hqual, analyzeSingleQuestion_placeholder _ _ _ hph]
  · constructor
    · intro hlen
      have hnot := Nat.not_lt.mpr hlen
      obtain ⟨h1, h2⟩ := reflectStep_self_missing resp
        (reflectQuestionStep resp (reflectQuestionStep resp (initialAnalysis, 0, []) _) _) _ hnot
      exact ⟨h1, h2⟩
    · intro hlen hph
      obtain ⟨e, he, hs, hqual⟩ := reflectStep_self_present resp
        (reflectQuestionStep resp (reflectQuestionStep resp (initialAnalysis, 0, []) _) _) _ hlen
      refine ⟨e, he, ?_, ?_⟩
      · rw [hs, analyzeSingleQuestion_placeholder _ _ _ hph]
      · rw [hqual, analyzeSingleQuestion_placeholder _ _ _ hph]

/-- C6 witness: the missing tier with no responses, and the placeholder tier
with a placeholder-bearing response, both at the data-types question. -/
theorem reflection_missing_and_placeholder_scoring_witness :
    ((analyzeReflectionQuestions noResponses initialAnalysis).question_analysis.lookup
        "data_types" =
      some { score := 0, max_score := 4000, quality := "Missing", response_text := ""
             detailed_feedback := missingQuestionGuidance "data_types" } ∧
     ("Data Types Analysis response") ∈
       (analyzeReflectionQuestions noResponses initialAnalysis).missing_elements) ∧
    (∃ e, (analyzeReflectionQuestions
        (fun _ => "My answer is here: [write your response here] with date and amount words")
        initialAnalysis).question_analysis.lookup "data_types" = some e ∧
      e.score = 500 ∧ e.quality = "Incomplete") :=
  ⟨(reflection_missing_and_placeholder_scoring noResponses _
      (List.mem_cons_self _ _)).1 (by decide),
   (reflection_missing_and_placeholder_scoring
      (fun _ => "My answer is here: [write your response here] with date and amount words") _
      (List.mem_cons_self _ _)).2 (by decide) (by decide)⟩

end ReflectionClaim

section CodeIssueClaim

/-- C3: the duplicate that the stderr path of `_detect_code_errors` lets
through.  Two cells whose outputs carry the same qualifying stderr text
produce the same `code_issues` entry twice (the guard tests the raw stream
text for membership, but what gets appended is the text with the added
`ERROR:` prefix, so the guard never fires). -/
theorem stderr_duplicate_code_issues :
    (detectCodeErrors dupErrCells initialAnalysis).code_issues =
      ["ERROR: Error: object sales_df not found",
       "ERROR: Error: object sales_df not found"] ∧
    ¬(detectCodeErrors dupErrCells initialAnalysis).code_issues.Nodup := by
  constructor
  · decide
  · decide

end CodeIssueClaim

section LegacyParserClaims

theorem parseQuestionItem_dt_mono (r : ParsedFeedback) (item : String)
    (h : r.question_analysis.lookup "data_types" = some ⟨3800, 4000, "Excellent"⟩) :
    (parseQuestionItem r item).question_analysis.lookup "data_types" =
      some ⟨3800, 4000, "Excellent"⟩ := by
  unfold parseQuestionItem
  repeat' split
  · exact lookup_dictInsert_self _ _ _
  · rw [lookup_dictInsert_ne _ _ (by decide)]; exact h
  · rw [lookup_dictInsert_ne _ _ (by decide)]; exact h
  · exact h

theorem parseQuestionItem_dq_mono (r : ParsedFeedback) (item : String)
    (h : r.question_analysis.lookup "data_quality" = some ⟨3800, 4000, "Excellent"⟩) :
    (parseQuestionItem r item).question_analysis.lookup "data_quality" =
      some ⟨3800, 4000, "Excellent"⟩ := by
  unfold parseQuestionItem
  repeat' split
  · rw [lookup_dictInsert_ne _ _ (by decide)]; exact h
  · exact lookup_dictInsert_self _ _ _
  · rw [lookup_dictInsert_ne _ _ (by decide)]; exact h
  · exact h

theorem parseQuestionItem_ar_mono (r : ParsedFeedback) (item : String)
    (h : r.question_analysis.lookup "analysis_readiness" = some ⟨2700, 4500, "Satisfactory"⟩) :
    (parseQuestionItem r item).question_analysis.lookup "analysis_readiness" =
      some ⟨2700, 4500, "Satisfactory"⟩ := by
  unfold parseQuestionItem
  repeat' split
  · rw [lookup_dictInsert_ne _ _ (by decide)]; exact h
  · rw [lookup_dictInsert_ne _ _ (by decide)]; exact h
  · exact lookup_dictInsert_self _ _ _
  · exact h

theorem parseQuestionItem_dt_sets (r : ParsedFeedback) (item : String)
    (h : pyIn "Data Types:" item = true) :
    (parseQuestionItem r item).question_analysis.lookup "data_types" =
      some ⟨3800, 4000, "Excellent"⟩ := by
  unfold parseQuestionItem
  rw [if_pos h]
  exact lookup_dictInsert_self _ _ _

theorem parseQuestionItem_dq_sets (r : ParsedFeedback) (item : String)
    (h : pyIn "Data Quality:" item = true) (hno : pyIn "Data Types:" item = false) :
    (parseQuestionItem r item).question_analysis.lookup "data_quality" =
      some ⟨3800, 4000, "Excellent"⟩ := by
  unfold parseQuestionItem
  rw [if_neg (by simp [hno]), if_pos h]
  exact lookup_dictInsert_self _ _ _

theorem parseQuestionItem_ar_sets (r : ParsedFeedback) (item : String)
    (h : pyIn "Analysis Readiness:" item = true) (hno1 : pyIn "Data Types:" item = false)
    (hno2 : pyIn "Data Quality:" item = false) :
    (parseQuestionItem r item).question_analysis.lookup "analysis_readiness" =
      some ⟨2700, 4500, "Satisfactory"⟩ := by
  unfold parseQuestionItem
  rw [if_neg (by simp [hno1]), if_neg (by simp [hno2]), if_pos h]
  exact lookup_dictInsert_self _ _ _

/-- C10 (amended): the legacy normalizer assigns fixed hard-coded question
entries — data_types 3.8/4 Excellent, data_quality 3.8/4 Excellent,
analysis_readiness 2.7/4.5 Satisfactory — regardless of the scores stated in
the input, whenever the corresponding label occurs in an input string that is
not consumed by an earlier label of the branch chain (Data Types shadows Data
Quality, which shadows Analysis Readiness, within the same string). -/
theorem legacy_parser_fixed_question_entries (fb : List String) :
    ((∃ item ∈ fb, pyIn "Data Types:" item = true) →
       (parseOldFeedbackFormat fb).question_analysis.lookup "data_types" =
         some ⟨3800, 4000, "Excellent"⟩) ∧
    ((∃ item ∈ fb, pyIn "Data Quality:" item = true ∧ pyIn "Data Types:" item = false) →
       (parseOldFeedbackFormat fb).question_analysis.lookup "data_quality" =
         some ⟨3800, 4000, "Excellent"⟩) ∧
    ((∃ item ∈ fb, pyIn "Analysis Readiness:" item = true ∧
        pyIn "Data Types:" item = false ∧ pyIn "Data Quality:" item = false) →
       (parseOldFeedbackFormat fb).question_analysis.lookup "analysis_readiness" =
         some ⟨2700, 4500, "Satisfactory"⟩) := by
  unfold parseOldFeedbackFormat
  dsimp only
  refine ⟨?_, ?_, ?_⟩
  · rintro ⟨item, hmem, hit⟩
    exact foldl_reaches _ _ (fun r x h => parseQuestionItem_dt_mono r x h) item
      (fun r => parseQuestionItem_dt_sets r item hit) fb _ hmem
  · rintro ⟨item, hmem, hit, hno⟩
    exact foldl_reaches _ _ (fun r x h => parseQuestionItem_dq_mono r x h) item
      (fun r => parseQuestionItem_dq_sets r item hit hno) fb _ hmem
  · rintro ⟨item, hmem, hit, hno1, hno2⟩
    exact foldl_reaches _ _ (fun r x h => parseQuestionItem_ar_mono r x h) item
      (fun r => parseQuestionItem_ar_sets r item hit hno1 hno2) fb _ hmem

/-- C10 witness: the three fixed entries recovered from concrete one-label
feedback lines, ignoring the scores that the lines state. -/
theorem legacy_parser_fixed_question_entries_witness :
    (parseOldFeedbackFormat legacyQuestionLines).question_analysis.lookup "data_types" =
        some ⟨3800, 4000, "Excellent"⟩ ∧
    (parseOldFeedbackFormat legacyQuestionLines).question_analysis.lookup "data_quality" =
        some ⟨3800, 4000, "Excellent"⟩ ∧
    (parseOldFeedbackFormat legacyQuestionLines).question_analysis.lookup
        "analysis_readiness" = some ⟨2700, 4500, "Satisfactory"⟩ :=
  ⟨(legacy_parser_fixed_question_entries legacyQuestionLines).1
      ⟨"• Data Types: Good (2.0/4 points)", by decide, by decide⟩,
   (legacy_parser_fixed_question_entries legacyQuestionLines).2.1
      ⟨"• Data Quality: Good (2.0/4 points)", by decide, by decide, by decide⟩,
   (legacy_parser_fixed_question_entries legacyQuestionLines).2.2
      ⟨"• Analysis Readiness: Satisfactory (2.5/4.5 points)", by decide, by decide, by decide,
       by decide⟩⟩

/-- C10 counterexample: with a single input string containing both the Data
Types and the Data Quality labels, the data_quality entry is never assigned —
although its label appears in the input — because the branch chain is consumed
by Data Types, which receives its fixed value despite the stated 1.0/4. -/
theorem legacy_parser_label_shadowing :
    pyIn "Data Quality:" twoLabelItem = true ∧
    (parseOldFeedbackFormat [twoLabelItem]).question_analysis.lookup "data_quality" = none ∧
    (parseOldFeedbackFormat [twoLabelItem]).question_analysis.lookup "data_types" =
      some ⟨3800, 4000, "Excellent"⟩ := by
  refine ⟨by decide, by decide, by decide⟩

end LegacyParserClaims

section RoundTripClaim

theorem parseQuestionItem_element_scores (r : ParsedFeedback) (item : String) :
    (parseQuestionItem r item).element_scores = r.element_scores := by
  unfold parseQuestionItem
  repeat' split
  all_goals rfl

theorem parseQuestionItem_overall (r : ParsedFeedback) (item : String) :
    (parseQuestionItem r item).overall_assessment = r.overall_assessment := by
  unfold parseQuestionItem
  repeat' split
  all_goals rfl

theorem parseScoreItem_elements_nonempty_mono (r : ParsedFeedback) (item : String)
    (h : r.element_scores ≠ []) : (parseScoreItem r item).element_scores ≠ [] := by
  unfold parseScoreItem
  repeat' split
  all_goals first
    | exact h
    | exact dictInsert_ne_nil _ _ _

theorem parseScoreItem_wd_feedback_nonempty (r : ParsedFeedback) (cells : List CodeCell) :
    (parseScoreItem r (wdFeedback cells)).element_scores ≠ [] := by
  unfold wdFeedback
  dsimp only
  split_ifs
  · unfold parseScoreItem
    rw [if_pos (by decide),
      show findScoreMatch
        "✅ **Working Directory (2/2 points)**: Correctly used getwd() and showed output" =
        some (2000, 2000) from by decide]
    exact dictInsert_ne_nil _ _ _
  · unfold parseScoreItem
    rw [if_pos (by decide),
      show findScoreMatch
        "👍 **Working Directory (1.5/2 points)**: Used getwd() and ran the cell - output may not be visible in this format" =
        some (1500, 2000) from by decide]
    exact dictInsert_ne_nil _ _ _
  · unfold parseScoreItem
    rw [if_pos (by decide),
      show findScoreMatch
        "⚠️ **Working Directory (0.5/2 points)**: Code is there but you need to RUN the cell to see the output" =
        some (500, 2000) from by decide]
    exact dictInsert_ne_nil _ _ _
  · unfold parseScoreItem
    rw [if_pos (by decide),
      show findScoreMatch
        "❌ **Working Directory (0/2 points)**: Missing getwd() function call" =
        some (0, 2000) from by decide]
    exact dictInsert_ne_nil _ _ _

theorem parseScoreItem_overall_ne (r : ParsedFeedback) (item : String)
    (h : r.overall_assessment ≠ "") : (parseScoreItem r item).overall_assessment ≠ "" := by
  unfold parseScoreItem
  repeat' split
  all_goals first
    | exact h
    | (rename_i hcond
       show item ≠ ""
       intro he
       rw [he] at hcond
       revert hcond
       decide)

theorem parseScoreItem_sets_overall (r : ParsedFeedback) (item : String)
    (hp : assessmentPhrasePresent item = true) (he : earlierScoreBranch item = false) :
    (parseScoreItem r item).overall_assessment = item := by
  unfold assessmentPhrasePresent at hp
  unfold earlierScoreBranch at he
  have h6 := (Bool.or_eq_false_iff.mp he).2
  have he5 := (Bool.or_eq_false_iff.mp he).1
  have h5 := (Bool.or_eq_false_iff.mp he5).2
  have he4 := (Bool.or_eq_false_iff.mp he5).1
  have h4 := (Bool.or_eq_false_iff.mp he4).2
  have he3 := (Bool.or_eq_false_iff.mp he4).1
  have h3 := (Bool.or_eq_false_iff.mp he3).2
  have he2 := (Bool.or_eq_false_iff.mp he3).1
  have h2 := (Bool.or_eq_false_iff.mp he2).2
  have h1 := (Bool.or_eq_false_iff.mp he2).1
  unfold parseScoreItem
  rw [if_neg (by simp [h1]), if_neg (by simp [h2]), if_neg (by simp [h3]),
    if_neg (by simp [h4]), if_neg (by simp [h5]), if_neg (by simp [h6]), if_pos hp]

theorem mem_format_of_mem_feedback (a : Analysis) (x : String)
    (h : x ∈ a.detailed_feedback) : x ∈ formatDetailedFeedback a := by
  unfold formatDetailedFeedback
  simp [List.mem_append, h]

/-- C8 (amended): parsing formatter output recovers a non-empty
`element_scores` for every completed analysis (the working-directory feedback
line always carries a labeled score pattern); and `overall_assessment` is
recovered non-empty whenever some feedback string carries one of the
recognized assessment phrases AND is not also matched by one of the earlier
element-score or code-issue branches of the scan — an assessment string that
mentions a below-threshold element inside its recommendations is consumed by
the earlier branch and leaves `overall_assessment` empty (see the
counterexample). -/
theorem format_parse_roundtrip_amended (cells : List NBCell) (resp : String → String) :
    (parseOldFeedbackFormat (formatDetailedFeedback
        (analyzeLoadedNotebook cells resp))).element_scores ≠ [] ∧
    (∀ item ∈ formatDetailedFeedback (analyzeLoadedNotebook cells resp),
       assessmentPhrasePresent item = true → earlierScoreBranch item = false →
       (parseOldFeedbackFormat (formatDetailedFeedback
           (analyzeLoadedNotebook cells resp))).overall_assessment ≠ "") := by
  unfold parseOldFeedbackFormat
  dsimp only
  constructor
  · rw [foldl_proj_const parseQuestionItem (fun r => r.element_scores)
      parseQuestionItem_element_scores]
    exact foldl_reaches _ _ (fun r x h => parseScoreItem_elements_nonempty_mono r x h)
      (wdFeedback (codeCellsOf cells))
      (fun r => parseScoreItem_wd_feedback_nonempty r (codeCellsOf cells)) _ _
      (mem_format_of_mem_feedback _ _ (wdFeedback_mem_pipeline cells resp))
  · intro item hmem hp he
    rw [foldl_proj_const parseQuestionItem (fun r => r.overall_assessment)
      parseQuestionItem_overall]
    refine foldl_reaches _ _ (fun r x h => parseScoreItem_overall_ne r x h) item
      (fun r => ?_) _ _ hmem
    rw [parseScoreItem_sets_overall r item hp he]
    intro h0
    rw [h0] at hp
    exact absurd hp (by decide)

set_option maxRecDepth 200000 in
set_option maxHeartbeats 2000000 in
/-- C8 witness: on a concrete full-marks notebook the recommendations are
empty, so the assessment string carries a phrase and hits no earlier branch,
and the round trip recovers both a non-empty element_scores and a non-empty
overall_assessment. -/
theorem format_parse_roundtrip_amended_witness :
    (parseOldFeedbackFormat (formatDetailedFeedback
        (analyzeLoadedNotebook techCells fullResponses))).element_scores ≠ [] ∧
    (parseOldFeedbackFormat (formatDetailedFeedback
        (analyzeLoadedNotebook techCells fullResponses))).overall_assessment ≠ "" :=
  ⟨(format_parse_roundtrip_amended techCells fullResponses).1,
   (format_parse_roundtrip_amended techCells fullResponses).2
      (analyzeLoadedNotebook techCells fullResponses).overall_assessment
      (overall_mem_format _) (by decide) (by decide)⟩

set_option maxRecDepth 200000 in
set_option maxHeartbeats 2000000 in
/-- C8 counterexample: a completed analysis (full technical marks, no
reflection responses, 66.7 percent) whose formatted feedback contains the
recognized phrase Keep Working inside the assessment string, yet the parsed
result's overall_assessment is empty: the assessment string also mentions
Reflection Questions with the word points in its recommendations, so the
earlier score branch consumes it. -/
theorem format_parse_roundtrip_counterexample :
    (∃ item ∈ formatDetailedFeedback (analyzeLoadedNotebook techCells noResponses),
       pyIn "Keep Working!" item = true) ∧
    (parseOldFeedbackFormat (formatDetailedFeedback
        (analyzeLoadedNotebook techCells noResponses))).overall_assessment = "" := by
  constructor
  · exact ⟨(analyzeLoadedNotebook techCells noResponses).overall_assessment,
      overall_mem_format _, by decide⟩
  · decide

end RoundTripClaim

end HomeworkGrader

